import Mathlib

/-!
# War (`war.c`): combat resolution and mission evaluation

A shallow embedding of the game logic of `war.c`: the territory map, the attack
phase (`faseDeAtaque`), the dice combat (`simularAtaque`), the map
initialisation (`inicializarTerritorios`) and the mission checker
(`verificarVitoria`).

Modelling conventions.
* C `int` values are `Int`.  Every quantity computed by the program stays far
  from the limits of a 32-bit `int` whenever its inputs do, so no wrap-around is
  modelled.
* `rand()` is a stream of naturals (`RandStream`); each call consumes the head.
* `printf`, `getchar` and `system` calls have no effect on the game state and
  are left out.  A value read by `scanf("%d", ...)` is an `Int` argument.
* A C array is a `List` read with `getD` and written with `set`; the map, whose
  length `NUM_TERRITORIOS` is fixed, is a function on `Fin NUM_TERRITORIOS`.
* A `for (int i = ini; i < fim; i++)` loop whose body changes neither `i` nor
  `fim` is `forLoop ini fim`.
-/

namespace War

/-! ## Data model -/

/-- Number of territories, `#define NUM_TERRITORIOS 12`. -/
abbrev NUM_TERRITORIOS : Nat := 12

/-- Number of missions, `#define NUM_MISSOES 6`. -/
abbrev NUM_MISSOES : Nat := 6

/-- The army colours, `enum CorExercito` (without the counter `NUM_CORES`). -/
inductive CorExercito where
  | AZUL
  | VERMELHO
  | VERDE
  | AMARELO
  deriving DecidableEq, Repr

/-- A territory, `struct Territorio`. -/
structure Territorio where
  nome : String
  exercito : CorExercito
  tropas : Int
  deriving DecidableEq, Repr

/-- The map: the array of `NUM_TERRITORIOS` territories returned by `alocarMapa`. -/
abbrev Mapa := Fin NUM_TERRITORIOS → Territorio

/-- The random source: the values the successive calls of `rand()` return. -/
abbrev RandStream := Nat → Nat

/-- One call of `rand()`: the value returned and the rest of the stream. -/
def rand (rng : RandStream) : Int × RandStream :=
  ((rng 0 : Int), fun k => rng (k + 1))

/-- The loop `for (int i = ini; i < fim; i++) s = corpo i s`. -/
def forLoop {σ : Type} (ini : Nat) (fim : Int) (corpo : Nat → σ → σ) (s : σ) : σ :=
  (List.range' ini (fim - (ini : Int)).toNat).foldl (fun acc i => corpo i acc) s

/-! ## `simularAtaque` -/

/-- Number of dice of the attacker:
`(origem->tropas - 1) > 3 ? 3 : (origem->tropas - 1)`. -/
def numDadosAtacante (origem : Territorio) : Int :=
  if origem.tropas - 1 > 3 then 3 else origem.tropas - 1

/-- Number of dice of the defender: `(destino->tropas > 2) ? 2 : destino->tropas`. -/
def numDadosDefensor (destino : Territorio) : Int :=
  if destino.tropas > 2 then 2 else destino.tropas

/-- The rolling loop `for (i = 0; i < n; i++) dados[i] = (rand() % 6) + 1;`. -/
def rolarDados (n : Int) (dados : List Int) (rng : RandStream) : List Int × RandStream :=
  forLoop 0 n
    (fun i (s : List Int × RandStream) =>
      let r := rand s.2
      (s.1.set i (r.1 % 6 + 1), r.2))
    (dados, rng)

/-- The exchange `if (dados[i] < dados[j]) { temp = dados[i]; dados[i] = dados[j];
dados[j] = temp; }`. -/
def trocarSeMenor (i j : Nat) (dados : List Int) : List Int :=
  if dados.getD i 0 < dados.getD j 0 then
    let temp := dados.getD i 0
    let dados1 := dados.set i (dados.getD j 0)
    dados1.set j temp
  else dados

/-- The sorting loops
`for (i = 0; i < n - 1; i++) for (j = i + 1; j < n; j++) ...`. -/
def ordenarDados (n : Int) (dados : List Int) : List Int :=
  forLoop 0 (n - 1)
    (fun i d => forLoop (i + 1) n (fun j d1 => trocarSeMenor i j d1) d)
    dados

/-- The comparison loop: the state is `(perdasAtacante, perdasDefensor)`. -/
def compararDados (comparacoes : Int) (dadosAtacante dadosDefensor : List Int) : Int × Int :=
  forLoop 0 comparacoes
    (fun i (p : Int × Int) =>
      if dadosAtacante.getD i 0 > dadosDefensor.getD i 0 then (p.1, p.2 + 1)
      else (p.1 + 1, p.2))
    (0, 0)

/-- The local variables of `simularAtaque` once the comparison loop has run. -/
structure Combate where
  numDadosAtacante : Int
  numDadosDefensor : Int
  /-- The array `dadosAtacante` as rolled, before the sorting loops. -/
  roladosAtacante : List Int
  /-- The array `dadosDefensor` as rolled, before the sorting loops. -/
  roladosDefensor : List Int
  /-- The array `dadosAtacante` after the sorting loops. -/
  dadosAtacante : List Int
  /-- The array `dadosDefensor` after the sorting loops. -/
  dadosDefensor : List Int
  comparacoes : Int
  perdasAtacante : Int
  perdasDefensor : Int
  /-- The random stream left after the dice were rolled. -/
  rng : RandStream

/-- The first part of `simularAtaque`: rolling, sorting and comparing the dice. -/
def combate (origem destino : Territorio) (rng : RandStream) : Combate :=
  let dadosAtacante0 : List Int := [0, 0, 0]
  let dadosDefensor0 : List Int := [0, 0]
  let nA := numDadosAtacante origem
  let rA := rolarDados nA dadosAtacante0 rng
  let nD := numDadosDefensor destino
  let rD := rolarDados nD dadosDefensor0 rA.2
  let dA := ordenarDados nA rA.1
  let dD := ordenarDados nD rD.1
  let comparacoes := if nA < nD then nA else nD
  let perdas := compararDados comparacoes dA dD
  { numDadosAtacante := nA
    numDadosDefensor := nD
    roladosAtacante := rA.1
    roladosDefensor := rD.1
    dadosAtacante := dA
    dadosDefensor := dD
    comparacoes := comparacoes
    perdasAtacante := perdas.1
    perdasDefensor := perdas.2
    rng := rD.2 }

/-- The two territories after `origem->tropas -= perdasAtacante;
destino->tropas -= perdasDefensor;`. -/
def aposPerdas (origem destino : Territorio) (c : Combate) : Territorio × Territorio :=
  ({ origem with tropas := origem.tropas - c.perdasAtacante },
   { destino with tropas := destino.tropas - c.perdasDefensor })

/-- The conquest check at the end of `simularAtaque`, on the two territories after
the losses were subtracted. -/
def conquistar (origem destino : Territorio) : Territorio × Territorio :=
  if destino.tropas ≤ 0 then
    let tropasParaMover : Int := if origem.tropas - 1 > 1 then 1 else origem.tropas - 1
    if tropasParaMover > 0 then
      let origem1 := { origem with tropas := origem.tropas - tropasParaMover }
      let destino1 := { destino with tropas := tropasParaMover }
      let destino2 := { destino1 with exercito := origem1.exercito }
      (origem1, destino2)
    else (origem, destino)
  else (origem, destino)

/-- The function `simularAtaque(origem, destino)` for two distinct territories (its
only caller, `faseDeAtaque`, never passes the same territory twice): the territories
`*origem` and `*destino` on return, and the random stream left. -/
def simularAtaque (origem destino : Territorio) (rng : RandStream) :
    Territorio × Territorio × RandStream :=
  let c := combate origem destino rng
  let p := aposPerdas origem destino c
  let r := conquistar p.1 p.2
  (r.1, r.2, c.rng)

/-! ## `inicializarTerritorios` and `sortearMissao` -/

/-- The table `nomesTerritorios`. -/
def nomesTerritorios : List String :=
  ["Amazônia", "Cerrado", "Mata Atlântica", "Caatinga",
   "Pampa", "Pantanal", "Alaska", "Groenlândia",
   "Sibéria", "Austrália", "África do Sul", "Antártida"]

/-- The map `alocarMapa` returns when `calloc` succeeds: every byte is zero, so each
name is empty, each army is the enum value 0 and each troop count is 0. -/
def alocarMapa : Mapa :=
  fun _ => { nome := "", exercito := CorExercito.AZUL, tropas := 0 }

/-- The function `inicializarTerritorios(mapa)`: the map on return and the random
stream left. -/
def inicializarTerritorios (mapa : Mapa) (rng : RandStream) : Mapa × RandStream :=
  forLoop 0 NUM_TERRITORIOS
    (fun i (s : Mapa × RandStream) =>
      if h : i < NUM_TERRITORIOS then
        let idx : Fin NUM_TERRITORIOS := ⟨i, h⟩
        let exercito :=
          if i < 3 then CorExercito.AZUL
          else if i < 6 then CorExercito.VERMELHO
          else if i < 9 then CorExercito.VERDE
          else CorExercito.AMARELO
        let r := rand s.2
        (Function.update s.1 idx
          { nome := nomesTerritorios.getD i "", exercito := exercito, tropas := r.1 % 5 + 1 },
         r.2)
      else s)
    (mapa, rng)

/-- The function `sortearMissao()`: the mission drawn and the random stream left. -/
def sortearMissao (rng : RandStream) : Int × RandStream :=
  let r := rand rng
  (r.1 % NUM_MISSOES + 1, r.2)

/-! ## `faseDeAtaque` -/

/-- The validation of `faseDeAtaque` on the two numbers the user entered: the array
indices of origin and destination when every check passes and `simularAtaque` is
called, `none` when one of the early `return`s is taken. -/
def validarAtaque (mapa : Mapa) (origemLida destinoLida : Int) :
    Option (Fin NUM_TERRITORIOS × Fin NUM_TERRITORIOS) :=
  if h1 : origemLida < 1 ∨ origemLida > NUM_TERRITORIOS then none
  else
    let origem : Fin NUM_TERRITORIOS := ⟨(origemLida - 1).toNat, by omega⟩
    if (mapa origem).exercito ≠ CorExercito.AZUL then none
    else if (mapa origem).tropas ≤ 1 then none
    else if h2 : destinoLida < 1 ∨ destinoLida > NUM_TERRITORIOS then none
    else
      let destino : Fin NUM_TERRITORIOS := ⟨(destinoLida - 1).toNat, by omega⟩
      if origem = destino then none
      else if (mapa destino).exercito = CorExercito.AZUL then none
      else some (origem, destino)

/-- The function `faseDeAtaque(mapa)` when the user enters `origemLida` and then (if
asked) `destinoLida`: the map on return and the random stream left. -/
def faseDeAtaque (mapa : Mapa) (origemLida destinoLida : Int) (rng : RandStream) :
    Mapa × RandStream :=
  match validarAtaque mapa origemLida destinoLida with
  | none => (mapa, rng)
  | some (origem, destino) =>
    let r := simularAtaque (mapa origem) (mapa destino) rng
    (Function.update (Function.update mapa origem r.1) destino r.2.1, r.2.2)

/-- The game state of `main` after `inicializarTerritorios`, `sortearMissao` and one
call of `faseDeAtaque` for each pair of `entradas` (the two numbers the user types),
all drawing from `rng`.  The loop of `main` stops at the first victory; here the calls
go on, so every state of `main` is among these. -/
def jogar (rng : RandStream) (entradas : List (Int × Int)) : Mapa × RandStream :=
  let ini := inicializarTerritorios alocarMapa rng
  let missao := sortearMissao ini.2
  entradas.foldl (fun s e => faseDeAtaque s.1 e.1 e.2 s.2) (ini.1, missao.2)

/-! ## `verificarVitoria` -/

/-- The counting loop of `verificarVitoria`: the state is
`(contagemTerritorios, territoriosJogador)`. -/
def contarTerritorios (mapa : Mapa) : (CorExercito → Int) × Int :=
  forLoop 0 NUM_TERRITORIOS
    (fun i (s : (CorExercito → Int) × Int) =>
      if h : i < NUM_TERRITORIOS then
        let e := (mapa ⟨i, h⟩).exercito
        let contagem := Function.update s.1 e (s.1 e + 1)
        if e = CorExercito.AZUL then (contagem, s.2 + 1) else (contagem, s.2)
      else s)
    (fun _ => 0, 0)

/-- The C value of a comparison: 1 when it holds and 0 otherwise. -/
def boolInt (p : Prop) [Decidable p] : Int := if p then 1 else 0

/-- The function `verificarVitoria(mapa, missaoId)`. -/
def verificarVitoria (mapa : Mapa) (missaoId : Int) : Int :=
  let c := contarTerritorios mapa
  let contagemTerritorios := c.1
  let territoriosJogador := c.2
  if missaoId = 1 then boolInt (contagemTerritorios CorExercito.VERMELHO = 0)
  else if missaoId = 2 then boolInt (contagemTerritorios CorExercito.VERDE = 0)
  else if missaoId = 3 then boolInt (contagemTerritorios CorExercito.AMARELO = 0)
  else if missaoId = 4 then boolInt (territoriosJogador ≥ 8)
  else if missaoId = 5 then boolInt (territoriosJogador ≥ 10)
  else if missaoId = 6 then
    boolInt (territoriosJogador ≥ 6 ∧ contagemTerritorios CorExercito.VERMELHO = 0)
  else 0

/-! ## Specification-level notions -/

/-- The number of territories of the map owned by army `cor`. -/
def numTerritorios (mapa : Mapa) (cor : CorExercito) : Nat :=
  (Finset.univ.filter (fun i : Fin NUM_TERRITORIOS => (mapa i).exercito = cor)).card

/-- The `i`-th largest (counting from 0) of the values `dados`; 0 when there are not
that many. -/
def iesimoMaior (dados : List Int) (i : Nat) : Int :=
  (dados.insertionSort (fun a b => a ≥ b)).getD i 0


/-- The dice a side rolled: the first `n` entries of its array (none when `n ≤ 0`). -/
def dadosRolados (n : Int) (dados : List Int) : List Int :=
  dados.take n.toNat

/-- The number of positions `i` with `0 ≤ i < n` that satisfy `p`. -/
def numPosicoes (n : Int) (p : Nat → Bool) : Nat :=
  ((List.range n.toNat).filter p).length

/-! ## Example inputs -/

/-- An example territory of the player, with `t` troops. -/
def exAzul (t : Int) : Territorio :=
  { nome := "Cerrado", exercito := CorExercito.AZUL, tropas := t }

/-- An example enemy territory, with `t` troops. -/
def exVerde (t : Int) : Territorio :=
  { nome := "Alaska", exercito := CorExercito.VERDE, tropas := t }

/-- A random stream whose first two values give a die of 6 and whose other values
give a die of 1. -/
def rngAtacanteVence : RandStream :=
  fun k => if k < 2 then 5 else 0

/-- An example map on which AZUL owns the 12 territories, so that every mission of
1..6 is fulfilled. -/
def mapaSemInimigos : Mapa :=
  fun _ => exAzul 2

/-- An example map: the initial map drawn from the stream `7 * k + 3`.  Territory 0
(AZUL) has 4 troops and territory 3 (VERMELHO) has 5. -/
def mapaExemplo : Mapa :=
  (inicializarTerritorios alocarMapa (fun k => 7 * k + 3)).1

/-! # Theorems -/

/-! ## Loops -/

theorem forLoop_nonpos {σ : Type} (ini : Nat) (fim : Int) (corpo : Nat → σ → σ) (s : σ)
    (h : fim ≤ ini) : forLoop ini fim corpo s = s := by
  have : (fim - (ini : Int)).toNat = 0 := by omega
  simp [forLoop, this]

theorem forLoop_succ {σ : Type} (ini : Nat) (fim : Int) (corpo : Nat → σ → σ) (s : σ)
    (h : (ini : Int) < fim) :
    forLoop ini fim corpo s = forLoop (ini + 1) fim corpo (corpo ini s) := by
  obtain ⟨k, hk⟩ : ∃ k, (fim - (ini : Int)).toNat = k + 1 := ⟨(fim - ini).toNat - 1, by omega⟩
  have h2 : (fim - ((ini : Int) + 1)).toNat = k := by omega
  simp [forLoop, hk, h2, List.range']

theorem forLoop_zero_eq_foldl {σ : Type} (fim : Int) (corpo : Nat → σ → σ) (s : σ) :
    forLoop 0 fim corpo s = (List.range fim.toNat).foldl (fun acc i => corpo i acc) s := by
  simp [forLoop, List.range_eq_range']

/-! ## The comparison loop -/

theorem foldl_comparar (p : Nat → Prop) [DecidablePred p] (l : List Nat) (a b : Int) :
    l.foldl (fun (acc : Int × Int) i => if p i then (acc.1, acc.2 + 1) else (acc.1 + 1, acc.2))
        (a, b)
      = (a + ((l.filter (fun i => !decide (p i))).length : Int),
         b + ((l.filter (fun i => decide (p i))).length : Int)) := by
  induction l generalizing a b with
  | nil => simp
  | cons i t ih =>
    by_cases hp : p i
    · simp [List.foldl_cons, hp, ih, List.filter_cons]; omega
    · simp [List.foldl_cons, hp, ih, List.filter_cons]; omega

theorem compararDados_eq (n : Int) (dA dD : List Int) :
    compararDados n dA dD
      = ((numPosicoes n (fun i => !decide (dA.getD i 0 > dD.getD i 0)) : Int),
         (numPosicoes n (fun i => decide (dA.getD i 0 > dD.getD i 0)) : Int)) := by
  unfold compararDados numPosicoes
  rw [forLoop_zero_eq_foldl]
  have h := foldl_comparar (fun i => dA.getD i 0 > dD.getD i 0) (List.range n.toNat) 0 0
  simpa using h

theorem filter_not_length_add (p : Nat → Bool) (l : List Nat) :
    (l.filter (fun i => !p i)).length + (l.filter p).length = l.length := by
  induction l with
  | nil => simp
  | cons i t ih =>
    cases hp : p i <;> simp [List.filter_cons, hp] <;> omega

theorem numPosicoes_add (n : Int) (p : Nat → Bool) :
    numPosicoes n (fun i => !p i) + numPosicoes n p = n.toNat := by
  unfold numPosicoes
  rw [filter_not_length_add, List.length_range]

theorem numPosicoes_congr (n : Int) (p q : Nat → Bool)
    (h : ∀ i : Nat, (i : Int) < n → p i = q i) : numPosicoes n p = numPosicoes n q := by
  unfold numPosicoes
  congr 1
  apply List.filter_congr
  intro i hi
  apply h
  have := List.mem_range.mp hi
  omega

/-! ## The rolling loop -/

theorem rolarDados_nonpos (n : Int) (dados : List Int) (rng : RandStream) (h : n ≤ 0) :
    rolarDados n dados rng = (dados, rng) := by
  unfold rolarDados
  rw [forLoop_nonpos]
  simpa using h

theorem rolarDados_length (n : Int) (dados : List Int) (rng : RandStream) :
    (rolarDados n dados rng).1.length = dados.length := by
  unfold rolarDados
  rw [forLoop_zero_eq_foldl]
  generalize List.range n.toNat = l
  generalize hs : (dados, rng) = s
  have hlen : s.1.length = dados.length := by rw [← hs]
  clear hs
  induction l generalizing s with
  | nil => simpa using hlen
  | cons i t ih =>
    rw [List.foldl_cons]
    apply ih
    simpa using hlen

/-! ## The sorting loops -/

theorem ordenarDados_le_one (n : Int) (dados : List Int) (h : n ≤ 1) :
    ordenarDados n dados = dados := by
  unfold ordenarDados
  rw [forLoop_nonpos]
  push_cast
  omega

theorem trocarSeMenor_tres_01 (x y z : Int) :
    trocarSeMenor 0 1 [x, y, z] = if x < y then [y, x, z] else [x, y, z] := by
  simp [trocarSeMenor]

theorem trocarSeMenor_tres_02 (x y z : Int) :
    trocarSeMenor 0 2 [x, y, z] = if x < z then [z, y, x] else [x, y, z] := by
  simp [trocarSeMenor]

theorem trocarSeMenor_tres_12 (x y z : Int) :
    trocarSeMenor 1 2 [x, y, z] = if y < z then [x, z, y] else [x, y, z] := by
  simp [trocarSeMenor]

theorem trocarSeMenor_dois_01 (x y : Int) :
    trocarSeMenor 0 1 [x, y] = if x < y then [y, x] else [x, y] := by
  simp [trocarSeMenor]

theorem ordenarDados_tres (x y z : Int) :
    ordenarDados 3 [x, y, z] = [x, y, z].insertionSort (fun a b => a ≥ b) := by
  simp only [ordenarDados, forLoop_succ, forLoop_nonpos, Nat.cast_zero, Nat.cast_one,
    Nat.cast_ofNat, zero_add, Int.reduceSub, Int.reduceLT, Int.reduceLE, Nat.reduceAdd,
    le_refl, List.insertionSort, List.orderedInsert, trocarSeMenor_tres_01]
  split_ifs <;> simp only [trocarSeMenor_tres_02] <;> split_ifs <;>
    simp only [trocarSeMenor_tres_12] <;> split_ifs <;>
    simp [List.orderedInsert] <;> (try split_ifs) <;> (try simp) <;> omega

theorem ordenarDados_dois_de_tres (x y z : Int) :
    ordenarDados 2 [x, y, z] = [x, y].insertionSort (fun a b => a ≥ b) ++ [z] := by
  simp only [ordenarDados, forLoop_succ, forLoop_nonpos, Nat.cast_zero, Nat.cast_one,
    Nat.cast_ofNat, zero_add, Int.reduceSub, Int.reduceLT, Int.reduceLE, Nat.reduceAdd,
    le_refl, List.insertionSort, List.orderedInsert, trocarSeMenor_tres_01]
  split_ifs <;> simp <;> omega

theorem ordenarDados_dois (x y : Int) :
    ordenarDados 2 [x, y] = [x, y].insertionSort (fun a b => a ≥ b) := by
  simp only [ordenarDados, forLoop_succ, forLoop_nonpos, Nat.cast_zero, Nat.cast_one,
    Nat.cast_ofNat, zero_add, Int.reduceSub, Int.reduceLT, Int.reduceLE, Nat.reduceAdd,
    le_refl, List.insertionSort, List.orderedInsert, trocarSeMenor_dois_01]
  split_ifs <;> simp <;> omega

/-- The sorting loops sort the rolled dice: for an array of at most 3 entries of
which the first `n` were rolled, these `n` entries end up as the rolled values in
descending order. -/
theorem ordenarDados_rolados (n : Int) (dados : List Int) (hn : n ≤ dados.length)
    (h3 : dados.length ≤ 3) :
    dadosRolados n (ordenarDados n dados)
      = (dadosRolados n dados).insertionSort (fun a b => a ≥ b) := by
  unfold dadosRolados
  rcases le_or_lt n 1 with h1 | h1
  · rw [ordenarDados_le_one n dados h1]
    have : n.toNat = 0 ∨ n.toNat = 1 := by omega
    rcases this with h | h <;> rw [h]
    · simp
    · cases dados with
      | nil => simp
      | cons x t => simp
  · match dados, hn, h3 with
    | [], hn, _ => simp at hn; omega
    | [x], hn, _ => simp at hn; omega
    | [x, y], hn, _ =>
      have : n = 2 := by simp at hn; omega
      subst this
      rw [ordenarDados_dois, List.take_of_length_le (by rw [List.length_insertionSort]; simp),
        List.take_of_length_le (by simp)]
    | [x, y, z], hn, _ =>
      have : n = 2 ∨ n = 3 := by simp at hn; omega
      rcases this with h | h <;> subst h
      · rw [ordenarDados_dois_de_tres]
        simp
        split_ifs <;> simp
      · rw [ordenarDados_tres, List.take_of_length_le (by rw [List.length_insertionSort]; simp),
          List.take_of_length_le (by simp)]
    | _ :: _ :: _ :: _ :: _, _, h3 => simp at h3

/-! ## Facts on `combate` -/

theorem numDadosAtacante_le (origem : Territorio) : numDadosAtacante origem ≤ 3 := by
  unfold numDadosAtacante; split_ifs <;> omega

theorem numDadosDefensor_le (destino : Territorio) : numDadosDefensor destino ≤ 2 := by
  unfold numDadosDefensor; split_ifs <;> omega

theorem combate_comparacoes (origem destino : Territorio) (rng : RandStream) :
    (combate origem destino rng).comparacoes
      = if numDadosAtacante origem < numDadosDefensor destino then numDadosAtacante origem
        else numDadosDefensor destino := rfl

theorem combate_perdas (origem destino : Territorio) (rng : RandStream) :
    ((combate origem destino rng).perdasAtacante, (combate origem destino rng).perdasDefensor)
      = compararDados (combate origem destino rng).comparacoes
          (combate origem destino rng).dadosAtacante (combate origem destino rng).dadosDefensor :=
  rfl

theorem combate_perdas_soma (origem destino : Territorio) (rng : RandStream) :
    0 ≤ (combate origem destino rng).perdasAtacante ∧
    0 ≤ (combate origem destino rng).perdasDefensor ∧
    (combate origem destino rng).perdasAtacante + (combate origem destino rng).perdasDefensor
      = ((combate origem destino rng).comparacoes.toNat : Int) := by
  have h := combate_perdas origem destino rng
  rw [compararDados_eq] at h
  have h1 := congrArg Prod.fst h
  have h2 := congrArg Prod.snd h
  simp only at h1 h2
  rw [h1, h2]
  refine ⟨by positivity, by positivity, ?_⟩
  exact_mod_cast numPosicoes_add _ _

theorem simularAtaque_eq (origem destino : Territorio) (rng : RandStream) :
    simularAtaque origem destino rng
      = ((conquistar
            { origem with tropas := origem.tropas - (combate origem destino rng).perdasAtacante }
            { destino with tropas := destino.tropas - (combate origem destino rng).perdasDefensor }).1,
         (conquistar
            { origem with tropas := origem.tropas - (combate origem destino rng).perdasAtacante }
            { destino with tropas := destino.tropas - (combate origem destino rng).perdasDefensor }).2,
         (combate origem destino rng).rng) := rfl

/-- C1: for an attacker with at least 2 troops and a defender with at least 1, and
whatever the dice, `simularAtaque` computes non-negative `perdasAtacante` and
`perdasDefensor` whose sum is `comparacoes`, which is
`min (min (a - 1) 3) (min d 2)`; for 5 troops against 1 and for 2 troops against 3
exactly one troop is lost in total, in the loss counters and in the troop counts on
return. -/
theorem perdas_soma_comparacoes (origem destino : Territorio) (rng : RandStream)
    (ha : 2 ≤ origem.tropas) (hd : 1 ≤ destino.tropas) :
    0 ≤ (combate origem destino rng).perdasAtacante ∧
    0 ≤ (combate origem destino rng).perdasDefensor ∧
    (combate origem destino rng).perdasAtacante + (combate origem destino rng).perdasDefensor
      = (combate origem destino rng).comparacoes ∧
    (combate origem destino rng).comparacoes
      = min (min (origem.tropas - 1) 3) (min destino.tropas 2) ∧
    (origem.tropas = 5 ∧ destino.tropas = 1 →
      (combate origem destino rng).perdasAtacante
        + (combate origem destino rng).perdasDefensor = 1 ∧
      (simularAtaque origem destino rng).1.tropas
        + (simularAtaque origem destino rng).2.1.tropas = 5 + 1 - 1) ∧
    (origem.tropas = 2 ∧ destino.tropas = 3 →
      (combate origem destino rng).perdasAtacante
        + (combate origem destino rng).perdasDefensor = 1 ∧
      (simularAtaque origem destino rng).1.tropas
        + (simularAtaque origem destino rng).2.1.tropas = 2 + 3 - 1) := by
  obtain ⟨h1, h2, h3⟩ := combate_perdas_soma origem destino rng
  have hc := combate_comparacoes origem destino rng
  have hmin : (combate origem destino rng).comparacoes
      = min (min (origem.tropas - 1) 3) (min destino.tropas 2) := by
    rw [hc]; unfold numDadosAtacante numDadosDefensor
    split_ifs <;> omega
  have hpos : 0 ≤ (combate origem destino rng).comparacoes := by rw [hmin]; omega
  have h4 : (combate origem destino rng).perdasAtacante
      + (combate origem destino rng).perdasDefensor = (combate origem destino rng).comparacoes := by
    rw [h3]; omega
  refine ⟨h1, h2, h4, hmin, ?_, ?_⟩
  · rintro ⟨e1, e2⟩
    have h5 : (combate origem destino rng).perdasAtacante
        + (combate origem destino rng).perdasDefensor = 1 := by rw [h4, hmin, e1, e2]; rfl
    refine ⟨h5, ?_⟩
    rw [simularAtaque_eq]
    simp only [conquistar]
    split_ifs <;> simp only <;> omega
  · rintro ⟨e1, e2⟩
    have h5 : (combate origem destino rng).perdasAtacante
        + (combate origem destino rng).perdasDefensor = 1 := by rw [h4, hmin, e1, e2]; rfl
    refine ⟨h5, ?_⟩
    rw [simularAtaque_eq]
    simp only [conquistar]
    split_ifs <;> simp only <;> omega

theorem perdas_soma_comparacoes_witness :
    2 ≤ (exAzul 5).tropas ∧ 1 ≤ (exVerde 1).tropas ∧
    (combate (exAzul 5) (exVerde 1) rngAtacanteVence).perdasAtacante
      + (combate (exAzul 5) (exVerde 1) rngAtacanteVence).perdasDefensor = 1 :=
  ⟨by decide, by decide,
    ((perdas_soma_comparacoes (exAzul 5) (exVerde 1) rngAtacanteVence
      (by decide) (by decide)).2.2.2.2.1 ⟨rfl, rfl⟩).1⟩

theorem getD_dadosRolados (n : Int) (dados : List Int) (i : Nat) (h : (i : Int) < n) :
    (dadosRolados n dados).getD i 0 = dados.getD i 0 := by
  unfold dadosRolados
  have hi : i < n.toNat := by omega
  simp [List.getD_eq_getElem?_getD, List.getElem?_take, hi]

theorem combate_dadosAtacante (origem destino : Territorio) (rng : RandStream) (i : Nat)
    (h : (i : Int) < (combate origem destino rng).numDadosAtacante) :
    (combate origem destino rng).dadosAtacante.getD i 0
      = iesimoMaior (dadosRolados (combate origem destino rng).numDadosAtacante
          (combate origem destino rng).roladosAtacante) i := by
  unfold iesimoMaior
  rw [← getD_dadosRolados _ _ _ h]
  have hlen : (combate origem destino rng).roladosAtacante.length = 3 := by
    show (rolarDados _ [0, 0, 0] rng).1.length = 3
    rw [rolarDados_length]; rfl
  have hn : (combate origem destino rng).numDadosAtacante ≤ 3 := numDadosAtacante_le origem
  rw [← ordenarDados_rolados _ _ (by rw [hlen]; exact_mod_cast hn) (by omega)]
  rfl

theorem combate_dadosDefensor (origem destino : Territorio) (rng : RandStream) (i : Nat)
    (h : (i : Int) < (combate origem destino rng).numDadosDefensor) :
    (combate origem destino rng).dadosDefensor.getD i 0
      = iesimoMaior (dadosRolados (combate origem destino rng).numDadosDefensor
          (combate origem destino rng).roladosDefensor) i := by
  unfold iesimoMaior
  rw [← getD_dadosRolados _ _ _ h]
  have hlen : (combate origem destino rng).roladosDefensor.length = 2 := by
    show (rolarDados _ [0, 0] _).1.length = 2
    rw [rolarDados_length]; rfl
  have hn : (combate origem destino rng).numDadosDefensor ≤ 2 := numDadosDefensor_le destino
  rw [← ordenarDados_rolados _ _ (by rw [hlen]; exact_mod_cast hn) (by omega)]
  rfl

/-- C2: whatever the dice, `perdasDefensor` is the number of positions
`i < comparacoes` at which the `i`-th largest die rolled by the attacker is strictly
greater than the `i`-th largest die rolled by the defender, and `perdasAtacante` is
the number of the other compared positions, those at which the attacker's die is
smaller or equal (so a tie costs the attacker the troop); the two add up to the
number of compared positions, so the dice beyond `comparacoes` cost nothing. -/
theorem perdas_por_posicao (origem destino : Territorio) (rng : RandStream) :
    (combate origem destino rng).perdasDefensor
      = numPosicoes (combate origem destino rng).comparacoes (fun i =>
          decide (iesimoMaior (dadosRolados (combate origem destino rng).numDadosAtacante
                (combate origem destino rng).roladosAtacante) i
            > iesimoMaior (dadosRolados (combate origem destino rng).numDadosDefensor
                (combate origem destino rng).roladosDefensor) i)) ∧
    (combate origem destino rng).perdasAtacante
      = numPosicoes (combate origem destino rng).comparacoes (fun i =>
          decide (iesimoMaior (dadosRolados (combate origem destino rng).numDadosAtacante
                (combate origem destino rng).roladosAtacante) i
            ≤ iesimoMaior (dadosRolados (combate origem destino rng).numDadosDefensor
                (combate origem destino rng).roladosDefensor) i)) ∧
    (combate origem destino rng).perdasAtacante + (combate origem destino rng).perdasDefensor
      = ((combate origem destino rng).comparacoes.toNat : Int) := by
  have hA := combate_dadosAtacante origem destino rng
  have hD := combate_dadosDefensor origem destino rng
  have hc : (combate origem destino rng).comparacoes
      ≤ (combate origem destino rng).numDadosAtacante ∧
      (combate origem destino rng).comparacoes
      ≤ (combate origem destino rng).numDadosDefensor := by
    rw [combate_comparacoes]
    show _ ≤ numDadosAtacante origem ∧ _ ≤ numDadosDefensor destino
    split_ifs <;> omega
  have h := combate_perdas origem destino rng
  rw [compararDados_eq] at h
  have h1 := congrArg Prod.fst h
  have h2 := congrArg Prod.snd h
  simp only at h1 h2
  refine ⟨?_, ?_, (combate_perdas_soma origem destino rng).2.2⟩
  · rw [h2]
    congr 1
    apply numPosicoes_congr
    intro i hi
    rw [hA i (by omega), hD i (by omega)]
  · rw [h1]
    congr 1
    apply numPosicoes_congr
    intro i hi
    rw [hA i (by omega), hD i (by omega)]
    simp only [gt_iff_lt, ← not_le, decide_not, Bool.not_not]

/-! ## The conquest check -/

theorem conquistar_transfere (origem destino : Territorio) (hd : destino.tropas ≤ 0)
    (ha : origem.tropas > 1) :
    conquistar origem destino
      = ({ origem with tropas := origem.tropas - 1 },
         { destino with tropas := 1, exercito := origem.exercito }) := by
  unfold conquistar
  rw [if_pos hd]
  by_cases h : origem.tropas - 1 > 1
  · simp [h]
  · have e : origem.tropas - 1 = 1 := by omega
    simp [e]

theorem conquistar_sem_mover (origem destino : Territorio) (hd : destino.tropas ≤ 0)
    (ha : origem.tropas ≤ 1) : conquistar origem destino = (origem, destino) := by
  unfold conquistar
  rw [if_pos hd]
  have h1 : ¬ origem.tropas - 1 > 1 := by omega
  have h2 : ¬ origem.tropas - 1 > 0 := by omega
  simp only [h1, h2, if_false]

theorem conquistar_defensor_resiste (origem destino : Territorio) (hd : destino.tropas > 0) :
    conquistar origem destino = (origem, destino) := by
  unfold conquistar
  rw [if_neg (by omega)]

/-- C3: whatever the input and the dice, when the losses leave the defender with 0
troops or fewer and the attacker with more than 1, then on return the defender has
the attacker's army, exactly one troop was moved (the defender has 1 troop and the
attacker one fewer than after its losses), and both have at least 1 troop. -/
theorem conquista_move_uma_tropa (origem destino : Territorio) (rng : RandStream)
    (hd : destino.tropas - (combate origem destino rng).perdasDefensor ≤ 0)
    (ha : origem.tropas - (combate origem destino rng).perdasAtacante > 1) :
    (simularAtaque origem destino rng).2.1.exercito
      = (simularAtaque origem destino rng).1.exercito ∧
    (simularAtaque origem destino rng).1.exercito = origem.exercito ∧
    (simularAtaque origem destino rng).2.1.tropas = 1 ∧
    (simularAtaque origem destino rng).1.tropas
      = origem.tropas - (combate origem destino rng).perdasAtacante - 1 ∧
    (simularAtaque origem destino rng).2.1.tropas ≥ 1 ∧
    (simularAtaque origem destino rng).1.tropas ≥ 1 := by
  rw [simularAtaque_eq, conquistar_transfere _ _ hd ha]
  refine ⟨rfl, rfl, rfl, rfl, ?_, ?_⟩
  · show (1 : Int) ≥ 1
    omega
  · show origem.tropas - (combate origem destino rng).perdasAtacante - 1 ≥ 1
    omega

theorem conquista_move_uma_tropa_witness :
    (exVerde 1).tropas - (combate (exAzul 3) (exVerde 1) rngAtacanteVence).perdasDefensor ≤ 0 ∧
    (exAzul 3).tropas - (combate (exAzul 3) (exVerde 1) rngAtacanteVence).perdasAtacante > 1 ∧
    (simularAtaque (exAzul 3) (exVerde 1) rngAtacanteVence).2.1.exercito
      = (simularAtaque (exAzul 3) (exVerde 1) rngAtacanteVence).1.exercito ∧
    (simularAtaque (exAzul 3) (exVerde 1) rngAtacanteVence).2.1.tropas = 1 :=
  ⟨by decide, by decide,
    (conquista_move_uma_tropa (exAzul 3) (exVerde 1) rngAtacanteVence
      (by decide) (by decide)).1,
    (conquista_move_uma_tropa (exAzul 3) (exVerde 1) rngAtacanteVence
      (by decide) (by decide)).2.2.1⟩

/-- C4: whatever the input and the dice, when the defender still has more than 0
troops after its losses were subtracted, its army on return is the one it had before
the call. -/
theorem defensor_resiste_mantem_exercito (origem destino : Territorio) (rng : RandStream)
    (hd : destino.tropas - (combate origem destino rng).perdasDefensor > 0) :
    (simularAtaque origem destino rng).2.1.exercito = destino.exercito := by
  rw [simularAtaque_eq, conquistar_defensor_resiste _ _ hd]

theorem defensor_resiste_mantem_exercito_witness :
    (exVerde 3).tropas - (combate (exAzul 4) (exVerde 3) rngAtacanteVence).perdasDefensor > 0 ∧
    (simularAtaque (exAzul 4) (exVerde 3) rngAtacanteVence).2.1.exercito = CorExercito.VERDE :=
  ⟨by decide,
    defensor_resiste_mantem_exercito (exAzul 4) (exVerde 3) rngAtacanteVence (by decide)⟩

/-- C6: whatever the input and the dice, when the losses leave the defender with 0
troops or fewer and the attacker with 1 troop or fewer, nothing is transferred: on
return the defender has its army of before the call and its troop count after
losses (0 or fewer), and the attacker has its troop count after losses. -/
theorem sem_tropas_para_mover (origem destino : Territorio) (rng : RandStream)
    (hd : destino.tropas - (combate origem destino rng).perdasDefensor ≤ 0)
    (ha : origem.tropas - (combate origem destino rng).perdasAtacante ≤ 1) :
    (simularAtaque origem destino rng).2.1.exercito = destino.exercito ∧
    (simularAtaque origem destino rng).2.1.tropas
      = destino.tropas - (combate origem destino rng).perdasDefensor ∧
    (simularAtaque origem destino rng).2.1.tropas ≤ 0 ∧
    (simularAtaque origem destino rng).1.tropas
      = origem.tropas - (combate origem destino rng).perdasAtacante := by
  rw [simularAtaque_eq, conquistar_sem_mover _ _ hd ha]
  exact ⟨rfl, rfl, hd, rfl⟩

theorem sem_tropas_para_mover_witness :
    (exVerde 0).tropas - (combate (exAzul 1) (exVerde 0) rngAtacanteVence).perdasDefensor ≤ 0 ∧
    (exAzul 1).tropas - (combate (exAzul 1) (exVerde 0) rngAtacanteVence).perdasAtacante ≤ 1 ∧
    (simularAtaque (exAzul 1) (exVerde 0) rngAtacanteVence).2.1.exercito = CorExercito.VERDE ∧
    (simularAtaque (exAzul 1) (exVerde 0) rngAtacanteVence).2.1.tropas ≤ 0 :=
  ⟨by decide, by decide,
    (sem_tropas_para_mover (exAzul 1) (exVerde 0) rngAtacanteVence (by decide) (by decide)).1,
    (sem_tropas_para_mover (exAzul 1) (exVerde 0) rngAtacanteVence
      (by decide) (by decide)).2.2.1⟩

/-! ## The counting loop of `verificarVitoria` -/

theorem foldl_range_dite {σ : Type} (n : Nat) (f : Fin n → σ → σ) (s : σ) :
    (List.range n).foldl (fun acc i => if h : i < n then f ⟨i, h⟩ acc else acc) s
      = (List.finRange n).foldl (fun acc i => f i acc) s := by
  rw [← List.map_coe_finRange n, List.foldl_map]
  congr 1
  funext acc i
  simp

theorem card_filter_univ_eq_countP {n : Nat} (p : Fin n → Prop) [DecidablePred p] :
    (Finset.univ.filter p).card = (List.finRange n).countP (fun i => decide (p i)) := by
  rw [Finset.card_def, Finset.filter_val, Fin.univ_def]
  simp [List.countP_eq_length_filter]

theorem foldl_contar (mapa : Mapa) (l : List (Fin NUM_TERRITORIOS)) (c : CorExercito → Int)
    (t : Int) :
    l.foldl (fun (acc : (CorExercito → Int) × Int) i =>
        if (mapa i).exercito = CorExercito.AZUL then
          (Function.update acc.1 (mapa i).exercito (acc.1 (mapa i).exercito + 1), acc.2 + 1)
        else (Function.update acc.1 (mapa i).exercito (acc.1 (mapa i).exercito + 1), acc.2))
        (c, t)
      = (fun cor => c cor + (l.countP (fun i => decide ((mapa i).exercito = cor)) : Int),
         t + (l.countP (fun i => decide ((mapa i).exercito = CorExercito.AZUL)) : Int)) := by
  induction l generalizing c t with
  | nil => simp
  | cons i r ih =>
    rw [List.foldl_cons]
    by_cases hA : (mapa i).exercito = CorExercito.AZUL
    · rw [if_pos hA, ih]
      refine Prod.ext ?_ ?_
      · funext cor
        by_cases hc : (mapa i).exercito = cor
        · subst hc; simp [List.countP_cons]; omega
        · simp [List.countP_cons, hc, Function.update_noteq (Ne.symm hc)]
      · simp [List.countP_cons, hA]; omega
    · rw [if_neg hA, ih]
      refine Prod.ext ?_ ?_
      · funext cor
        by_cases hc : (mapa i).exercito = cor
        · subst hc; simp [List.countP_cons]; omega
        · simp [List.countP_cons, hc, Function.update_noteq (Ne.symm hc)]
      · simp [List.countP_cons, hA]

theorem contarTerritorios_eq (mapa : Mapa) :
    contarTerritorios mapa
      = (fun cor => (numTerritorios mapa cor : Int), (numTerritorios mapa CorExercito.AZUL : Int)) := by
  unfold contarTerritorios
  rw [forLoop_zero_eq_foldl]
  have e : ((NUM_TERRITORIOS : Nat) : Int).toNat = NUM_TERRITORIOS := rfl
  rw [e]
  rw [foldl_range_dite NUM_TERRITORIOS (fun idx (s : (CorExercito → Int) × Int) =>
        let e := (mapa idx).exercito
        let contagem := Function.update s.1 e (s.1 e + 1)
        if e = CorExercito.AZUL then (contagem, s.2 + 1) else (contagem, s.2))]
  have h := foldl_contar mapa (List.finRange NUM_TERRITORIOS) (fun _ => 0) 0
  simp only at h ⊢
  rw [h]
  unfold numTerritorios
  simp only [card_filter_univ_eq_countP, zero_add]

/-! ## `verificarVitoria` -/

theorem boolInt_ne_zero (p : Prop) [Decidable p] : boolInt p ≠ 0 ↔ p := by
  unfold boolInt; split_ifs with h <;> simp [h]

theorem boolInt_eq_zero (p : Prop) [Decidable p] : boolInt p = 0 ↔ ¬ p := by
  unfold boolInt; split_ifs with h <;> simp [h]

theorem verificarVitoria_eq (mapa : Mapa) (missaoId : Int) :
    verificarVitoria mapa missaoId =
      if missaoId = 1 then boolInt ((numTerritorios mapa CorExercito.VERMELHO : Int) = 0)
      else if missaoId = 2 then boolInt ((numTerritorios mapa CorExercito.VERDE : Int) = 0)
      else if missaoId = 3 then boolInt ((numTerritorios mapa CorExercito.AMARELO : Int) = 0)
      else if missaoId = 4 then boolInt ((numTerritorios mapa CorExercito.AZUL : Int) ≥ 8)
      else if missaoId = 5 then boolInt ((numTerritorios mapa CorExercito.AZUL : Int) ≥ 10)
      else if missaoId = 6 then
        boolInt ((numTerritorios mapa CorExercito.AZUL : Int) ≥ 6 ∧
          (numTerritorios mapa CorExercito.VERMELHO : Int) = 0)
      else 0 := by
  unfold verificarVitoria
  rw [contarTerritorios_eq]

/-- C7: for every map of 12 territories, `verificarVitoria(mapa, 4)` is true exactly
when AZUL owns at least 8 territories and `verificarVitoria(mapa, 5)` exactly when
AZUL owns at least 10; two maps with the same number of AZUL territories get the same
result, however the other territories are split among the enemy armies. -/
theorem missao_conquistar_territorios (mapa : Mapa) :
    (verificarVitoria mapa 4 ≠ 0 ↔ 8 ≤ numTerritorios mapa CorExercito.AZUL) ∧
    (verificarVitoria mapa 5 ≠ 0 ↔ 10 ≤ numTerritorios mapa CorExercito.AZUL) ∧
    (∀ outro : Mapa,
      numTerritorios outro CorExercito.AZUL = numTerritorios mapa CorExercito.AZUL →
        verificarVitoria outro 4 = verificarVitoria mapa 4 ∧
        verificarVitoria outro 5 = verificarVitoria mapa 5) := by
  refine ⟨?_, ?_, ?_⟩
  · rw [verificarVitoria_eq]
    simp only [show ¬ ((4 : Int) = 1) by decide, show ¬ ((4 : Int) = 2) by decide,
      show ¬ ((4 : Int) = 3) by decide, if_false, if_true, boolInt_ne_zero]
    omega
  · rw [verificarVitoria_eq]
    simp only [show ¬ ((5 : Int) = 1) by decide, show ¬ ((5 : Int) = 2) by decide,
      show ¬ ((5 : Int) = 3) by decide, show ¬ ((5 : Int) = 4) by decide, if_false, if_true,
      boolInt_ne_zero]
    omega
  · intro outro h
    rw [verificarVitoria_eq, verificarVitoria_eq, verificarVitoria_eq, verificarVitoria_eq, h]
    exact ⟨rfl, rfl⟩

/-- C8: for every map of 12 territories, `verificarVitoria(mapa, 6)` is true exactly
when AZUL owns at least 6 territories and VERMELHO owns none, and it returns 0 as
soon as one of the two conditions fails. -/
theorem missao_seis (mapa : Mapa) :
    (verificarVitoria mapa 6 ≠ 0 ↔
      6 ≤ numTerritorios mapa CorExercito.AZUL ∧ numTerritorios mapa CorExercito.VERMELHO = 0) ∧
    (verificarVitoria mapa 6 = 0 ↔
      numTerritorios mapa CorExercito.AZUL < 6 ∨ numTerritorios mapa CorExercito.VERMELHO ≠ 0) := by
  rw [verificarVitoria_eq]
  simp only [show ¬ ((6 : Int) = 1) by decide, show ¬ ((6 : Int) = 2) by decide,
    show ¬ ((6 : Int) = 3) by decide, show ¬ ((6 : Int) = 4) by decide,
    show ¬ ((6 : Int) = 5) by decide, if_false, if_true, boolInt_ne_zero, boolInt_eq_zero]
  omega

/-- C9: for every map of 12 territories, `verificarVitoria(mapa, 1)` is true exactly
when VERMELHO owns no territory, `verificarVitoria(mapa, 2)` exactly when VERDE owns
none, and `verificarVitoria(mapa, 3)` exactly when AMARELO owns none. -/
theorem missao_destruir_exercito (mapa : Mapa) :
    (verificarVitoria mapa 1 ≠ 0 ↔ numTerritorios mapa CorExercito.VERMELHO = 0) ∧
    (verificarVitoria mapa 2 ≠ 0 ↔ numTerritorios mapa CorExercito.VERDE = 0) ∧
    (verificarVitoria mapa 3 ≠ 0 ↔ numTerritorios mapa CorExercito.AMARELO = 0) := by
  refine ⟨?_, ?_, ?_⟩
  · rw [verificarVitoria_eq]
    simp only [if_true, boolInt_ne_zero]
    omega
  · rw [verificarVitoria_eq]
    simp only [show ¬ ((2 : Int) = 1) by decide, if_false, if_true, boolInt_ne_zero]
    omega
  · rw [verificarVitoria_eq]
    simp only [show ¬ ((3 : Int) = 1) by decide, show ¬ ((3 : Int) = 2) by decide, if_false,
      if_true, boolInt_ne_zero]
    omega

/-- C10: for every map and every `missaoId` outside 1..6 (zero, negative or greater
than 6), `verificarVitoria(mapa, missaoId)` returns 0. -/
theorem missao_desconhecida (mapa : Mapa) (missaoId : Int)
    (h : missaoId < 1 ∨ missaoId > 6) : verificarVitoria mapa missaoId = 0 := by
  rw [verificarVitoria_eq]
  have h1 : ¬ missaoId = 1 := by omega
  have h2 : ¬ missaoId = 2 := by omega
  have h3 : ¬ missaoId = 3 := by omega
  have h4 : ¬ missaoId = 4 := by omega
  have h5 : ¬ missaoId = 5 := by omega
  have h6 : ¬ missaoId = 6 := by omega
  simp only [h1, h2, h3, h4, h5, h6, if_false]

theorem missao_desconhecida_witness :
    ((7 : Int) < 1 ∨ (7 : Int) > 6) ∧ verificarVitoria mapaSemInimigos 7 = 0 :=
  ⟨by decide, missao_desconhecida mapaSemInimigos 7 (by decide)⟩

/-! ## `inicializarTerritorios` -/

theorem foldl_inicializar (P : Territorio → Prop) (l : List (Fin NUM_TERRITORIOS))
    (f : Fin NUM_TERRITORIOS → RandStream → Territorio)
    (g : RandStream → RandStream)
    (hf : ∀ i r, P (f i r)) (s : Mapa × RandStream)
    (hs : ∀ i, P (s.1 i) ∨ i ∈ l) (i : Fin NUM_TERRITORIOS) :
    P ((l.foldl (fun (acc : Mapa × RandStream) idx =>
          (Function.update acc.1 idx (f idx acc.2), g acc.2)) s).1 i) := by
  induction l generalizing s with
  | nil => simpa using hs i
  | cons j t ih =>
    rw [List.foldl_cons]
    apply ih
    intro k
    by_cases hk : k = j
    · subst hk
      left
      simp only [Function.update_same]
      exact hf _ _
    · rcases hs k with h | h
      · left
        simpa only [Function.update_noteq hk] using h
      · right
        simpa [hk] using h

theorem inicializarTerritorios_tropas (mapa : Mapa) (rng : RandStream)
    (i : Fin NUM_TERRITORIOS) :
    1 ≤ ((inicializarTerritorios mapa rng).1 i).tropas ∧
    ((inicializarTerritorios mapa rng).1 i).tropas ≤ 5 := by
  unfold inicializarTerritorios
  rw [forLoop_zero_eq_foldl]
  have e : ((NUM_TERRITORIOS : Nat) : Int).toNat = NUM_TERRITORIOS := rfl
  rw [e]
  rw [foldl_range_dite NUM_TERRITORIOS (fun idx (s : Mapa × RandStream) =>
        let exercito :=
          if idx.val < 3 then CorExercito.AZUL
          else if idx.val < 6 then CorExercito.VERMELHO
          else if idx.val < 9 then CorExercito.VERDE
          else CorExercito.AMARELO
        let r := rand s.2
        (Function.update s.1 idx
          { nome := nomesTerritorios.getD idx.val "", exercito := exercito,
            tropas := r.1 % 5 + 1 },
         r.2))]
  apply foldl_inicializar (fun t => 1 ≤ t.tropas ∧ t.tropas ≤ 5) (List.finRange NUM_TERRITORIOS)
    (fun idx r =>
      { nome := nomesTerritorios.getD idx.val "",
        exercito :=
          if idx.val < 3 then CorExercito.AZUL
          else if idx.val < 6 then CorExercito.VERMELHO
          else if idx.val < 9 then CorExercito.VERDE
          else CorExercito.AMARELO,
        tropas := (rand r).1 % 5 + 1 })
    (fun r => (rand r).2)
  · intro idx r
    simp only [rand]
    omega
  · intro k
    right
    exact List.mem_finRange k

/-! ## The invariant of the attack phase -/

theorem simularAtaque_tropas_pos (origem destino : Territorio) (rng : RandStream)
    (ha : 2 ≤ origem.tropas) (hd : 1 ≤ destino.tropas) :
    1 ≤ (simularAtaque origem destino rng).1.tropas ∧
    1 ≤ (simularAtaque origem destino rng).2.1.tropas := by
  obtain ⟨h1, h2, h3⟩ := combate_perdas_soma origem destino rng
  have hc := combate_comparacoes origem destino rng
  have hmin : (combate origem destino rng).comparacoes
      = min (min (origem.tropas - 1) 3) (min destino.tropas 2) := by
    rw [hc]; unfold numDadosAtacante numDadosDefensor
    split_ifs <;> omega
  rw [simularAtaque_eq]
  by_cases hD : destino.tropas - (combate origem destino rng).perdasDefensor ≤ 0
  · by_cases hA : origem.tropas - (combate origem destino rng).perdasAtacante > 1
    · rw [conquistar_transfere _ _ hD hA]
      constructor
      · show 1 ≤ origem.tropas - (combate origem destino rng).perdasAtacante - 1
        omega
      · show (1 : Int) ≤ 1
        omega
    · exfalso
      omega
  · rw [conquistar_defensor_resiste _ _ (by simpa using hD)]
    constructor
    · show 1 ≤ origem.tropas - (combate origem destino rng).perdasAtacante
      omega
    · show 1 ≤ destino.tropas - (combate origem destino rng).perdasDefensor
      omega

theorem validarAtaque_some (mapa : Mapa) (origemLida destinoLida : Int)
    (origem destino : Fin NUM_TERRITORIOS)
    (h : validarAtaque mapa origemLida destinoLida = some (origem, destino)) :
    (1 ≤ origemLida ∧ origemLida ≤ 12 ∧ (origem.val : Int) = origemLida - 1) ∧
    (1 ≤ destinoLida ∧ destinoLida ≤ 12 ∧ (destino.val : Int) = destinoLida - 1) ∧
    (mapa origem).exercito = CorExercito.AZUL ∧ 2 ≤ (mapa origem).tropas ∧
    (mapa destino).exercito ≠ CorExercito.AZUL ∧ origem ≠ destino := by
  unfold validarAtaque at h
  by_cases h1 : origemLida < 1 ∨ origemLida > NUM_TERRITORIOS
  · rw [dif_pos h1] at h; cases h
  rw [dif_neg h1] at h
  simp only at h
  by_cases h2 : (mapa ⟨(origemLida - 1).toNat, by omega⟩).exercito ≠ CorExercito.AZUL
  · rw [if_pos h2] at h; cases h
  rw [if_neg h2] at h
  by_cases h3 : (mapa ⟨(origemLida - 1).toNat, by omega⟩).tropas ≤ 1
  · rw [if_pos h3] at h; cases h
  rw [if_neg h3] at h
  by_cases h4 : destinoLida < 1 ∨ destinoLida > NUM_TERRITORIOS
  · rw [dif_pos h4] at h; cases h
  rw [dif_neg h4] at h
  by_cases h5 : (⟨(origemLida - 1).toNat, by omega⟩ : Fin NUM_TERRITORIOS)
      = ⟨(destinoLida - 1).toNat, by omega⟩
  · rw [if_pos h5] at h; cases h
  rw [if_neg h5] at h
  by_cases h6 : (mapa ⟨(destinoLida - 1).toNat, by omega⟩).exercito = CorExercito.AZUL
  · rw [if_pos h6] at h; cases h
  rw [if_neg h6] at h
  simp only [Option.some.injEq, Prod.mk.injEq] at h
  obtain ⟨rfl, rfl⟩ := h
  have hN : ((NUM_TERRITORIOS : Nat) : Int) = 12 := rfl
  refine ⟨⟨by omega, by omega, ?_⟩, ⟨by omega, by omega, ?_⟩, ?_, by omega, h6, h5⟩
  · show (((origemLida - 1).toNat : Nat) : Int) = origemLida - 1
    omega
  · show (((destinoLida - 1).toNat : Nat) : Int) = destinoLida - 1
    omega
  · simpa using h2

theorem faseDeAtaque_tropas_pos (mapa : Mapa) (origemLida destinoLida : Int)
    (rng : RandStream) (h : ∀ i, 1 ≤ (mapa i).tropas) (i : Fin NUM_TERRITORIOS) :
    1 ≤ ((faseDeAtaque mapa origemLida destinoLida rng).1 i).tropas := by
  unfold faseDeAtaque
  cases hv : validarAtaque mapa origemLida destinoLida with
  | none => exact h i
  | some p =>
    obtain ⟨origem, destino⟩ := p
    obtain ⟨-, -, -, ha, -, hne⟩ := validarAtaque_some mapa _ _ _ _ hv
    have hs := simularAtaque_tropas_pos (mapa origem) (mapa destino) rng ha (h destino)
    simp only
    by_cases hi : i = destino
    · subst hi
      rw [Function.update_same]
      exact hs.2
    · rw [Function.update_noteq hi]
      by_cases hj : i = origem
      · subst hj
        rw [Function.update_same]
        exact hs.1
      · rw [Function.update_noteq hj]
        exact h i

theorem foldl_faseDeAtaque_tropas_pos (entradas : List (Int × Int)) (s : Mapa × RandStream)
    (h : ∀ i, 1 ≤ (s.1 i).tropas) (i : Fin NUM_TERRITORIOS) :
    1 ≤ ((entradas.foldl (fun s e => faseDeAtaque s.1 e.1 e.2 s.2) s).1 i).tropas := by
  induction entradas generalizing s with
  | nil => exact h i
  | cons e t ih =>
    rw [List.foldl_cons]
    exact ih _ (faseDeAtaque_tropas_pos s.1 e.1 e.2 s.2 h)

/-- C5: in the game state reached from `inicializarTerritorios`, for any random
stream, by any sequence of `faseDeAtaque` calls with any user inputs, each of the 12
territories has at least 1 troop (so no troop count is negative once a combat is
over); and whenever `faseDeAtaque` accepts an attack in such a state, the defender
has at least 1 troop and `numDadosDefensor` is at least 1. -/
theorem tropas_sempre_positivas (rng : RandStream) (entradas : List (Int × Int)) :
    (∀ i, 1 ≤ ((jogar rng entradas).1 i).tropas) ∧
    (∀ i, 0 ≤ ((jogar rng entradas).1 i).tropas) ∧
    (∀ (origemLida destinoLida : Int) (origem destino : Fin NUM_TERRITORIOS),
      validarAtaque (jogar rng entradas).1 origemLida destinoLida = some (origem, destino) →
        1 ≤ ((jogar rng entradas).1 destino).tropas ∧
        1 ≤ numDadosDefensor ((jogar rng entradas).1 destino)) := by
  have hinv : ∀ i, 1 ≤ ((jogar rng entradas).1 i).tropas := by
    intro i
    unfold jogar
    apply foldl_faseDeAtaque_tropas_pos
    intro k
    exact (inicializarTerritorios_tropas alocarMapa rng k).1
  refine ⟨hinv, fun i => by have := hinv i; omega, ?_⟩
  intro origemLida destinoLida origem destino _
  have h := hinv destino
  refine ⟨h, ?_⟩
  unfold numDadosDefensor
  split_ifs <;> omega

/-! ## The initial map -/

theorem foldl_inicializar_indice (P : Fin NUM_TERRITORIOS → Territorio → Prop)
    (l : List (Fin NUM_TERRITORIOS))
    (f : Fin NUM_TERRITORIOS → RandStream → Territorio)
    (g : RandStream → RandStream)
    (hf : ∀ i r, P i (f i r)) (s : Mapa × RandStream)
    (hs : ∀ i, P i (s.1 i) ∨ i ∈ l) (i : Fin NUM_TERRITORIOS) :
    P i ((l.foldl (fun (acc : Mapa × RandStream) idx =>
          (Function.update acc.1 idx (f idx acc.2), g acc.2)) s).1 i) := by
  induction l generalizing s with
  | nil => simpa using hs i
  | cons j t ih =>
    rw [List.foldl_cons]
    apply ih
    intro k
    by_cases hk : k = j
    · subst hk
      left
      simp only [Function.update_same]
      exact hf _ _
    · rcases hs k with h | h
      · left
        simpa only [Function.update_noteq hk] using h
      · right
        simpa [hk] using h

theorem inicializarTerritorios_exercito (mapa : Mapa) (rng : RandStream)
    (i : Fin NUM_TERRITORIOS) :
    ((inicializarTerritorios mapa rng).1 i).exercito
      = (if i.val < 3 then CorExercito.AZUL
         else if i.val < 6 then CorExercito.VERMELHO
         else if i.val < 9 then CorExercito.VERDE
         else CorExercito.AMARELO) ∧
    ((inicializarTerritorios mapa rng).1 i).nome = nomesTerritorios.getD i.val "" := by
  unfold inicializarTerritorios
  rw [forLoop_zero_eq_foldl]
  have e : ((NUM_TERRITORIOS : Nat) : Int).toNat = NUM_TERRITORIOS := rfl
  rw [e]
  rw [foldl_range_dite NUM_TERRITORIOS (fun idx (s : Mapa × RandStream) =>
        let exercito :=
          if idx.val < 3 then CorExercito.AZUL
          else if idx.val < 6 then CorExercito.VERMELHO
          else if idx.val < 9 then CorExercito.VERDE
          else CorExercito.AMARELO
        let r := rand s.2
        (Function.update s.1 idx
          { nome := nomesTerritorios.getD idx.val "", exercito := exercito,
            tropas := r.1 % 5 + 1 },
         r.2))]
  apply foldl_inicializar_indice
    (fun k t =>
      t.exercito = (if k.val < 3 then CorExercito.AZUL
         else if k.val < 6 then CorExercito.VERMELHO
         else if k.val < 9 then CorExercito.VERDE
         else CorExercito.AMARELO) ∧
      t.nome = nomesTerritorios.getD k.val "")
    (List.finRange NUM_TERRITORIOS)
    (fun idx r =>
      { nome := nomesTerritorios.getD idx.val "",
        exercito :=
          if idx.val < 3 then CorExercito.AZUL
          else if idx.val < 6 then CorExercito.VERMELHO
          else if idx.val < 9 then CorExercito.VERDE
          else CorExercito.AMARELO,
        tropas := (rand r).1 % 5 + 1 })
    (fun r => (rand r).2)
  · intro idx r
    exact ⟨rfl, rfl⟩
  · intro k
    right
    exact List.mem_finRange k

theorem numTerritorios_congr (mapa : Mapa) (f : Fin NUM_TERRITORIOS → CorExercito)
    (h : ∀ i, (mapa i).exercito = f i) (cor : CorExercito) :
    numTerritorios mapa cor = (Finset.univ.filter (fun i => f i = cor)).card := by
  unfold numTerritorios
  congr 1
  apply Finset.filter_congr
  intro i _
  rw [h i]

/-- C11: whatever values the random source returns, after `inicializarTerritorios`
every territory `i` of 0..11 has between 1 and 5 troops and belongs to AZUL for `i`
in 0..2, to VERMELHO for 3..5, to VERDE for 6..8 and to AMARELO for 9..11, so each of
the four armies starts with exactly 3 territories. -/
theorem inicializacao_tres_por_exercito (mapa : Mapa) (rng : RandStream) :
    (∀ i : Fin NUM_TERRITORIOS,
      1 ≤ ((inicializarTerritorios mapa rng).1 i).tropas ∧
      ((inicializarTerritorios mapa rng).1 i).tropas ≤ 5) ∧
    (∀ i : Fin NUM_TERRITORIOS,
      (i.val ≤ 2 → ((inicializarTerritorios mapa rng).1 i).exercito = CorExercito.AZUL) ∧
      (3 ≤ i.val ∧ i.val ≤ 5 →
        ((inicializarTerritorios mapa rng).1 i).exercito = CorExercito.VERMELHO) ∧
      (6 ≤ i.val ∧ i.val ≤ 8 →
        ((inicializarTerritorios mapa rng).1 i).exercito = CorExercito.VERDE) ∧
      (9 ≤ i.val ∧ i.val ≤ 11 →
        ((inicializarTerritorios mapa rng).1 i).exercito = CorExercito.AMARELO)) ∧
    (∀ cor : CorExercito, numTerritorios (inicializarTerritorios mapa rng).1 cor = 3) := by
  refine ⟨fun i => inicializarTerritorios_tropas mapa rng i, ?_, ?_⟩
  · intro i
    have h := (inicializarTerritorios_exercito mapa rng i).1
    refine ⟨?_, ?_, ?_, ?_⟩ <;> intro hi <;> rw [h] <;> split_ifs <;> first | rfl | omega
  · intro cor
    rw [numTerritorios_congr _ _ (fun i => (inicializarTerritorios_exercito mapa rng i).1)]
    cases cor <;> decide

/-! ## The validation of `faseDeAtaque` -/

theorem validarAtaque_aceita (mapa : Mapa) (origemLida destinoLida : Int)
    (origem destino : Fin NUM_TERRITORIOS)
    (ho : (origem.val : Int) = origemLida - 1) (hd : (destino.val : Int) = destinoLida - 1)
    (h1 : (mapa origem).exercito = CorExercito.AZUL) (h2 : 2 ≤ (mapa origem).tropas)
    (h3 : (mapa destino).exercito ≠ CorExercito.AZUL) (h4 : origem ≠ destino) :
    validarAtaque mapa origemLida destinoLida = some (origem, destino) := by
  have hN : ((NUM_TERRITORIOS : Nat) : Int) = 12 := rfl
  have ho2 := origem.isLt
  have hd2 := destino.isLt
  have eo : (⟨(origemLida - 1).toNat, by omega⟩ : Fin NUM_TERRITORIOS) = origem := by
    apply Fin.ext
    show (origemLida - 1).toNat = origem.val
    omega
  have ed : (⟨(destinoLida - 1).toNat, by omega⟩ : Fin NUM_TERRITORIOS) = destino := by
    apply Fin.ext
    show (destinoLida - 1).toNat = destino.val
    omega
  unfold validarAtaque
  rw [dif_neg (by omega)]
  simp only [eo]
  rw [if_neg (by simpa using h1), if_neg (by omega), dif_neg (by omega)]
  simp only [ed]
  rw [if_neg h4, if_neg h3]

/-- C12: for every map and every pair of numbers the user enters, `faseDeAtaque`
calls `simularAtaque` exactly when the two 0-based indices are in 0..11, the origin
belongs to AZUL and has at least 2 troops, the destination does not belong to AZUL,
and origin and destination differ; it is then called on these two territories.  In
every other case the attack is rejected and the map (and the random stream) is
returned as it was. -/
theorem ataque_aceito_sse (mapa : Mapa) (origemLida destinoLida : Int) (rng : RandStream) :
    ((∃ p, validarAtaque mapa origemLida destinoLida = some p) ↔
      ∃ origem destino : Fin NUM_TERRITORIOS,
        (origem.val : Int) = origemLida - 1 ∧ (destino.val : Int) = destinoLida - 1 ∧
        (mapa origem).exercito = CorExercito.AZUL ∧ 2 ≤ (mapa origem).tropas ∧
        (mapa destino).exercito ≠ CorExercito.AZUL ∧ origem ≠ destino) ∧
    (∀ origem destino : Fin NUM_TERRITORIOS,
      validarAtaque mapa origemLida destinoLida = some (origem, destino) →
        ((origem.val : Int) = origemLida - 1 ∧ (destino.val : Int) = destinoLida - 1) ∧
        faseDeAtaque mapa origemLida destinoLida rng
          = (Function.update
              (Function.update mapa origem
                (simularAtaque (mapa origem) (mapa destino) rng).1)
              destino (simularAtaque (mapa origem) (mapa destino) rng).2.1,
             (simularAtaque (mapa origem) (mapa destino) rng).2.2)) ∧
    ((¬ ∃ origem destino : Fin NUM_TERRITORIOS,
        (origem.val : Int) = origemLida - 1 ∧ (destino.val : Int) = destinoLida - 1 ∧
        (mapa origem).exercito = CorExercito.AZUL ∧ 2 ≤ (mapa origem).tropas ∧
        (mapa destino).exercito ≠ CorExercito.AZUL ∧ origem ≠ destino) →
      validarAtaque mapa origemLida destinoLida = none ∧
      faseDeAtaque mapa origemLida destinoLida rng = (mapa, rng)) := by
  refine ⟨⟨?_, ?_⟩, ?_, ?_⟩
  · rintro ⟨⟨origem, destino⟩, h⟩
    obtain ⟨⟨-, -, ho⟩, ⟨-, -, hd⟩, h1, h2, h3, h4⟩ := validarAtaque_some mapa _ _ _ _ h
    exact ⟨origem, destino, ho, hd, h1, h2, h3, h4⟩
  · rintro ⟨origem, destino, ho, hd, h1, h2, h3, h4⟩
    exact ⟨(origem, destino), validarAtaque_aceita mapa _ _ _ _ ho hd h1 h2 h3 h4⟩
  · intro origem destino h
    obtain ⟨⟨-, -, ho⟩, ⟨-, -, hd⟩, -⟩ := validarAtaque_some mapa _ _ _ _ h
    refine ⟨⟨ho, hd⟩, ?_⟩
    unfold faseDeAtaque
    rw [h]
  · intro hneg
    cases hv : validarAtaque mapa origemLida destinoLida with
    | none =>
      refine ⟨rfl, ?_⟩
      unfold faseDeAtaque
      rw [hv]
    | some p =>
      exfalso
      obtain ⟨origem, destino⟩ := p
      obtain ⟨⟨-, -, ho⟩, ⟨-, -, hd⟩, h1, h2, h3, h4⟩ := validarAtaque_some mapa _ _ _ _ hv
      exact hneg ⟨origem, destino, ho, hd, h1, h2, h3, h4⟩

/-! ## What an attack changes -/

theorem conquistar_preserva (origem destino : Territorio) :
    (conquistar origem destino).1.nome = origem.nome ∧
    (conquistar origem destino).2.nome = destino.nome ∧
    (conquistar origem destino).1.exercito = origem.exercito ∧
    ((conquistar origem destino).2.exercito = destino.exercito ∨
      (conquistar origem destino).2.exercito = origem.exercito) := by
  by_cases hd : destino.tropas ≤ 0
  · by_cases ha : origem.tropas > 1
    · rw [conquistar_transfere _ _ hd ha]
      exact ⟨rfl, rfl, rfl, Or.inr rfl⟩
    · rw [conquistar_sem_mover _ _ hd (by omega)]
      exact ⟨rfl, rfl, rfl, Or.inl rfl⟩
  · rw [conquistar_defensor_resiste _ _ (by omega)]
    exact ⟨rfl, rfl, rfl, Or.inl rfl⟩

theorem simularAtaque_preserva (origem destino : Territorio) (rng : RandStream) :
    (simularAtaque origem destino rng).1.nome = origem.nome ∧
    (simularAtaque origem destino rng).2.1.nome = destino.nome ∧
    (simularAtaque origem destino rng).1.exercito = origem.exercito ∧
    ((simularAtaque origem destino rng).2.1.exercito = destino.exercito ∨
      (simularAtaque origem destino rng).2.1.exercito = origem.exercito) := by
  rw [simularAtaque_eq]
  exact conquistar_preserva _ _

theorem faseDeAtaque_aceito (mapa : Mapa) (origemLida destinoLida : Int) (rng : RandStream)
    (origem destino : Fin NUM_TERRITORIOS)
    (h : validarAtaque mapa origemLida destinoLida = some (origem, destino)) :
    (faseDeAtaque mapa origemLida destinoLida rng).1
      = Function.update
          (Function.update mapa origem (simularAtaque (mapa origem) (mapa destino) rng).1)
          destino (simularAtaque (mapa origem) (mapa destino) rng).2.1 := by
  unfold faseDeAtaque
  rw [h]

/-- C13: for every map, every attack `faseDeAtaque` accepts and every dice, the map
on return differs from the original at most at the origin and the destination: the
other territories are unchanged (owner, troops and name), every territory keeps its
name, and the attacking territory keeps its army. -/
theorem ataque_altera_so_combatentes (mapa : Mapa) (origemLida destinoLida : Int)
    (rng : RandStream) (origem destino : Fin NUM_TERRITORIOS)
    (h : validarAtaque mapa origemLida destinoLida = some (origem, destino)) :
    (∀ i, i ≠ origem → i ≠ destino →
      (faseDeAtaque mapa origemLida destinoLida rng).1 i = mapa i) ∧
    (∀ i, ((faseDeAtaque mapa origemLida destinoLida rng).1 i).nome = (mapa i).nome) ∧
    ((faseDeAtaque mapa origemLida destinoLida rng).1 origem).exercito
      = (mapa origem).exercito := by
  obtain ⟨-, -, -, -, -, hne⟩ := validarAtaque_some mapa _ _ _ _ h
  obtain ⟨hn1, hn2, he, -⟩ := simularAtaque_preserva (mapa origem) (mapa destino) rng
  rw [faseDeAtaque_aceito mapa _ _ rng _ _ h]
  refine ⟨?_, ?_, ?_⟩
  · intro i hio hid
    rw [Function.update_noteq hid, Function.update_noteq hio]
  · intro i
    by_cases hid : i = destino
    · subst hid
      rw [Function.update_same]
      exact hn2
    · rw [Function.update_noteq hid]
      by_cases hio : i = origem
      · subst hio
        rw [Function.update_same]
        exact hn1
      · rw [Function.update_noteq hio]
  · rw [Function.update_noteq hne, Function.update_same]
    exact he

theorem ataque_altera_so_combatentes_witness :
    validarAtaque mapaExemplo 1 4 = some (0, 3) ∧
    (∀ i : Fin NUM_TERRITORIOS, i ≠ 0 → i ≠ 3 →
      (faseDeAtaque mapaExemplo 1 4 rngAtacanteVence).1 i = mapaExemplo i) ∧
    ((faseDeAtaque mapaExemplo 1 4 rngAtacanteVence).1 0).exercito = CorExercito.AZUL :=
  ⟨by decide,
    (ataque_altera_so_combatentes mapaExemplo 1 4 rngAtacanteVence 0 3 (by decide)).1,
    (ataque_altera_so_combatentes mapaExemplo 1 4 rngAtacanteVence 0 3 (by decide)).2.2⟩

/-! ## The number of dice -/

theorem forLoop_invariante {σ : Type} (P : σ → Prop) (ini : Nat) (fim : Int)
    (corpo : Nat → σ → σ) (h : ∀ i s, P s → P (corpo i s)) (s : σ) (hs : P s) :
    P (forLoop ini fim corpo s) := by
  unfold forLoop
  generalize List.range' ini (fim - (ini : Int)).toNat = l
  induction l generalizing s with
  | nil => exact hs
  | cons i t ih =>
    rw [List.foldl_cons]
    exact ih _ (h i s hs)

theorem trocarSeMenor_length (i j : Nat) (dados : List Int) :
    (trocarSeMenor i j dados).length = dados.length := by
  unfold trocarSeMenor
  split_ifs <;> simp

theorem ordenarDados_length (n : Int) (dados : List Int) :
    (ordenarDados n dados).length = dados.length := by
  unfold ordenarDados
  refine forLoop_invariante (fun d => d.length = dados.length) _ _ _ ?_ dados rfl
  intro i d hd
  refine forLoop_invariante (fun d => d.length = dados.length) _ _ _ ?_ d hd
  intro j d1 hd1
  show (trocarSeMenor i j d1).length = dados.length
  rw [trocarSeMenor_length]
  exact hd1

theorem foldl_rolar_rng (l : List Nat) (s : List Int × RandStream) :
    (l.foldl (fun (acc : List Int × RandStream) i =>
        ((acc.1.set i ((rand acc.2).1 % 6 + 1)), (rand acc.2).2)) s).2
      = fun k => s.2 (k + l.length) := by
  induction l generalizing s with
  | nil => rfl
  | cons i t ih =>
    rw [List.foldl_cons, ih]
    funext k
    show s.2 (k + t.length + 1) = s.2 (k + (t.length + 1))
    rfl

theorem rolarDados_rng (n : Int) (dados : List Int) (rng : RandStream) :
    (rolarDados n dados rng).2 = fun k => rng (k + n.toNat) := by
  unfold rolarDados
  rw [forLoop_zero_eq_foldl]
  have h := foldl_rolar_rng (List.range n.toNat) (dados, rng)
  simp only [List.length_range] at h
  exact h

/-- C14: for an attacker with at least 2 troops and a defender with at least 1,
`simularAtaque` rolls `min (a - 1) 3` dice for the attacker and `min d 2` for the
defender (it draws that many values from `rand()`, one per die); the attacker's number
of dice is between 1 and 3 and the defender's between 1 and 2, so neither these
numbers nor `comparacoes` exceed the 3 and 2 entries of the dice arrays. -/
theorem numero_de_dados (origem destino : Territorio) (rng : RandStream)
    (ha : 2 ≤ origem.tropas) (hd : 1 ≤ destino.tropas) :
    (combate origem destino rng).numDadosAtacante = min (origem.tropas - 1) 3 ∧
    (combate origem destino rng).numDadosDefensor = min destino.tropas 2 ∧
    (1 ≤ (combate origem destino rng).numDadosAtacante ∧
      (combate origem destino rng).numDadosAtacante ≤ 3) ∧
    (1 ≤ (combate origem destino rng).numDadosDefensor ∧
      (combate origem destino rng).numDadosDefensor ≤ 2) ∧
    ((combate origem destino rng).roladosAtacante.length = 3 ∧
      (combate origem destino rng).dadosAtacante.length = 3 ∧
      (combate origem destino rng).roladosDefensor.length = 2 ∧
      (combate origem destino rng).dadosDefensor.length = 2) ∧
    ((combate origem destino rng).comparacoes ≤ 3 ∧
      (combate origem destino rng).comparacoes ≤ 2) ∧
    (combate origem destino rng).rng
      = (fun k => rng (k + ((combate origem destino rng).numDadosAtacante
          + (combate origem destino rng).numDadosDefensor).toNat)) := by
  have hA : (combate origem destino rng).numDadosAtacante = numDadosAtacante origem := rfl
  have hD : (combate origem destino rng).numDadosDefensor = numDadosDefensor destino := rfl
  have hA2 : numDadosAtacante origem = min (origem.tropas - 1) 3 := by
    unfold numDadosAtacante; split_ifs <;> omega
  have hD2 : numDadosDefensor destino = min destino.tropas 2 := by
    unfold numDadosDefensor; split_ifs <;> omega
  have hrA : (combate origem destino rng).roladosAtacante.length = 3 := by
    show (rolarDados _ [0, 0, 0] rng).1.length = 3
    rw [rolarDados_length]; rfl
  have hrD : (combate origem destino rng).roladosDefensor.length = 2 := by
    show (rolarDados _ [0, 0] _).1.length = 2
    rw [rolarDados_length]; rfl
  have hsA : (combate origem destino rng).dadosAtacante.length = 3 := by
    show (ordenarDados _ (combate origem destino rng).roladosAtacante).length = 3
    rw [ordenarDados_length, hrA]
  have hsD : (combate origem destino rng).dadosDefensor.length = 2 := by
    show (ordenarDados _ (combate origem destino rng).roladosDefensor).length = 2
    rw [ordenarDados_length, hrD]
  have hc := combate_comparacoes origem destino rng
  have hrng : (combate origem destino rng).rng
      = (fun k => rng (k + (numDadosAtacante origem + numDadosDefensor destino).toNat)) := by
    show (rolarDados (numDadosDefensor destino) [0, 0]
      (rolarDados (numDadosAtacante origem) [0, 0, 0] rng).2).2 = _
    rw [rolarDados_rng, rolarDados_rng]
    funext k
    show rng (k + (numDadosDefensor destino).toNat + (numDadosAtacante origem).toNat) = _
    congr 1
    omega
  rw [hA, hD]
  refine ⟨hA2, hD2, ⟨by omega, by omega⟩, ⟨by omega, by omega⟩, ⟨hrA, hsA, hrD, hsD⟩,
    ⟨?_, ?_⟩, hrng⟩
  · rw [hc]; split_ifs <;> omega
  · rw [hc]; split_ifs <;> omega

theorem numero_de_dados_witness :
    2 ≤ (exAzul 5).tropas ∧ 1 ≤ (exVerde 1).tropas ∧
    (combate (exAzul 5) (exVerde 1) rngAtacanteVence).numDadosAtacante
      = min ((exAzul 5).tropas - 1) 3 ∧
    (combate (exAzul 5) (exVerde 1) rngAtacanteVence).numDadosDefensor
      = min (exVerde 1).tropas 2 :=
  ⟨by decide, by decide,
    (numero_de_dados (exAzul 5) (exVerde 1) rngAtacanteVence (by decide) (by decide)).1,
    (numero_de_dados (exAzul 5) (exVerde 1) rngAtacanteVence (by decide) (by decide)).2.1⟩

/-! ## The sorted dice -/

theorem ordenarDados_ordem (n : Int) (dados : List Int) (h1 : 1 ≤ n)
    (hn : n ≤ dados.length) (h3 : dados.length ≤ 3) :
    List.Sorted (fun a b => a ≥ b) (dadosRolados n (ordenarDados n dados)) ∧
    List.Perm (dadosRolados n (ordenarDados n dados)) (dadosRolados n dados) ∧
    (ordenarDados n dados).getD 0 0 ∈ dadosRolados n dados ∧
    (∀ x ∈ dadosRolados n dados, x ≤ (ordenarDados n dados).getD 0 0) := by
  have hs : List.Sorted (fun a b : Int => a ≥ b)
      ((dadosRolados n dados).insertionSort (fun a b => a ≥ b)) :=
    List.sorted_insertionSort _ _
  have hp : List.Perm ((dadosRolados n dados).insertionSort (fun a b => a ≥ b))
      (dadosRolados n dados) := List.perm_insertionSort _ _
  have h0 : (ordenarDados n dados).getD 0 0
      = (dadosRolados n (ordenarDados n dados)).getD 0 0 := by
    rw [getD_dadosRolados]
    exact_mod_cast h1
  rw [h0, ordenarDados_rolados n dados hn h3]
  refine ⟨hs, hp, ?_, ?_⟩
  · cases hl : (dadosRolados n dados).insertionSort (fun a b => a ≥ b) with
    | nil =>
      exfalso
      have hlen := hp.length_eq
      rw [hl] at hlen
      unfold dadosRolados at hlen
      rw [List.length_take] at hlen
      simp only [List.length_nil] at hlen
      omega
    | cons x t =>
      rw [hl] at hp
      exact hp.subset (by simp)
  · intro x hx
    have hx2 : x ∈ (dadosRolados n dados).insertionSort (fun a b => a ≥ b) :=
      hp.symm.subset hx
    cases hl : (dadosRolados n dados).insertionSort (fun a b => a ≥ b) with
    | nil => rw [hl] at hx2; cases hx2
    | cons y t =>
      rw [hl] at hx2 hs
      show x ≤ y
      rcases List.mem_cons.mp hx2 with rfl | hxt
      · exact le_refl _
      · exact List.rel_of_sorted_cons hs x hxt

/-- C15: for every 1 to 3 dice rolled by the attacker (the first `nA` entries of its
array of 3) and every 1 to 2 dice rolled by the defender (the first `nD` entries of
its array of 2), the exchange loops of `simularAtaque` leave each side's dice in
descending order and as a permutation of the values rolled, and entry 0 holds the
side's highest die. -/
theorem dados_em_ordem_decrescente (dadosAtacante dadosDefensor : List Int) (nA nD : Int)
    (hlA : dadosAtacante.length = 3) (hA : 1 ≤ nA ∧ nA ≤ 3)
    (hlD : dadosDefensor.length = 2) (hD : 1 ≤ nD ∧ nD ≤ 2) :
    (List.Sorted (fun a b => a ≥ b) (dadosRolados nA (ordenarDados nA dadosAtacante)) ∧
      List.Perm (dadosRolados nA (ordenarDados nA dadosAtacante))
        (dadosRolados nA dadosAtacante) ∧
      (ordenarDados nA dadosAtacante).getD 0 0 ∈ dadosRolados nA dadosAtacante ∧
      (∀ x ∈ dadosRolados nA dadosAtacante, x ≤ (ordenarDados nA dadosAtacante).getD 0 0)) ∧
    (List.Sorted (fun a b => a ≥ b) (dadosRolados nD (ordenarDados nD dadosDefensor)) ∧
      List.Perm (dadosRolados nD (ordenarDados nD dadosDefensor))
        (dadosRolados nD dadosDefensor) ∧
      (ordenarDados nD dadosDefensor).getD 0 0 ∈ dadosRolados nD dadosDefensor ∧
      (∀ x ∈ dadosRolados nD dadosDefensor, x ≤ (ordenarDados nD dadosDefensor).getD 0 0)) :=
  ⟨ordenarDados_ordem nA dadosAtacante hA.1 (by rw [hlA]; exact_mod_cast hA.2) (by omega),
   ordenarDados_ordem nD dadosDefensor hD.1 (by rw [hlD]; exact_mod_cast hD.2) (by omega)⟩

theorem dados_em_ordem_decrescente_witness :
    ([2, 5, 3] : List Int).length = 3 ∧ ((1 : Int) ≤ 3 ∧ (3 : Int) ≤ 3) ∧
    ([4, 6] : List Int).length = 2 ∧ ((1 : Int) ≤ 2 ∧ (2 : Int) ≤ 2) ∧
    ordenarDados 3 [2, 5, 3] = [5, 3, 2] ∧ ordenarDados 2 [4, 6] = [6, 4] ∧
    List.Sorted (fun a b => a ≥ b) (dadosRolados 3 (ordenarDados 3 [2, 5, 3])) ∧
    List.Perm (dadosRolados 2 (ordenarDados 2 [4, 6])) (dadosRolados 2 [4, 6]) :=
  ⟨by decide, by decide, by decide, by decide, by decide, by decide,
    (dados_em_ordem_decrescente [2, 5, 3] [4, 6] 3 2 (by decide) (by decide) (by decide)
      (by decide)).1.1,
    (dados_em_ordem_decrescente [2, 5, 3] [4, 6] 3 2 (by decide) (by decide) (by decide)
      (by decide)).2.2.1⟩

/-! ## Conquest under the preconditions of the caller -/

theorem combate_comparacoes_min (origem destino : Territorio) (rng : RandStream)
    (ha : 2 ≤ origem.tropas) (hd : 1 ≤ destino.tropas) :
    (combate origem destino rng).comparacoes
      = min (min (origem.tropas - 1) 3) (min destino.tropas 2) := by
  rw [combate_comparacoes]
  unfold numDadosAtacante numDadosDefensor
  split_ifs <;> omega

/-- C16: for an attacker with at least 2 troops, a defender with at least 1 and any
dice, the branch of `simularAtaque` that conquers without transferring is never
taken: when the losses leave the defender with 0 troops or fewer, the attacker lost
nothing and has more than 1 troop, so the defender gets the attacker's army and 1
troop.  The defender is never left below 0 troops by the losses, it is given the
attacker's army exactly when the losses leave it with 0 troops and keeps its own
otherwise (so, the two armies being different, it changes owner exactly then), and it
ends the combat with at least 1 troop. -/
theorem conquista_sempre_transfere (origem destino : Territorio) (rng : RandStream)
    (ha : 2 ≤ origem.tropas) (hd : 1 ≤ destino.tropas) :
    ¬ (destino.tropas - (combate origem destino rng).perdasDefensor ≤ 0 ∧
        origem.tropas - (combate origem destino rng).perdasAtacante ≤ 1) ∧
    (destino.tropas - (combate origem destino rng).perdasDefensor ≤ 0 →
      (combate origem destino rng).perdasAtacante = 0 ∧
      origem.tropas - (combate origem destino rng).perdasAtacante > 1 ∧
      (simularAtaque origem destino rng).2.1.exercito = origem.exercito ∧
      (simularAtaque origem destino rng).2.1.tropas = 1 ∧
      (simularAtaque origem destino rng).1.tropas = origem.tropas - 1) ∧
    0 ≤ destino.tropas - (combate origem destino rng).perdasDefensor ∧
    (destino.tropas - (combate origem destino rng).perdasDefensor ≠ 0 →
      (simularAtaque origem destino rng).2.1.exercito = destino.exercito ∧
      (simularAtaque origem destino rng).2.1.tropas
        = destino.tropas - (combate origem destino rng).perdasDefensor) ∧
    (origem.exercito ≠ destino.exercito →
      ((simularAtaque origem destino rng).2.1.exercito ≠ destino.exercito ↔
        destino.tropas - (combate origem destino rng).perdasDefensor = 0)) ∧
    1 ≤ (simularAtaque origem destino rng).2.1.tropas := by
  obtain ⟨h1, h2, h3⟩ := combate_perdas_soma origem destino rng
  have hmin := combate_comparacoes_min origem destino rng ha hd
  have hzero : destino.tropas - (combate origem destino rng).perdasDefensor ≤ 0 →
      (combate origem destino rng).perdasAtacante = 0 ∧
      origem.tropas - (combate origem destino rng).perdasAtacante > 1 := by
    intro h
    constructor <;> omega
  have hconq : destino.tropas - (combate origem destino rng).perdasDefensor ≤ 0 →
      (simularAtaque origem destino rng).2.1.exercito = origem.exercito ∧
      (simularAtaque origem destino rng).2.1.tropas = 1 ∧
      (simularAtaque origem destino rng).1.tropas = origem.tropas - 1 := by
    intro h
    obtain ⟨hA0, hA1⟩ := hzero h
    rw [simularAtaque_eq, conquistar_transfere _ _ h hA1]
    refine ⟨rfl, rfl, ?_⟩
    show origem.tropas - (combate origem destino rng).perdasAtacante - 1 = origem.tropas - 1
    omega
  have hresiste : destino.tropas - (combate origem destino rng).perdasDefensor ≠ 0 →
      (simularAtaque origem destino rng).2.1.exercito = destino.exercito ∧
      (simularAtaque origem destino rng).2.1.tropas
        = destino.tropas - (combate origem destino rng).perdasDefensor := by
    intro h
    have hpos : destino.tropas - (combate origem destino rng).perdasDefensor > 0 := by omega
    rw [simularAtaque_eq, conquistar_defensor_resiste _ _ hpos]
    exact ⟨rfl, rfl⟩
  refine ⟨?_, ?_, by omega, hresiste, ?_, ?_⟩
  · rintro ⟨hD, hA⟩
    have := (hzero hD).2
    omega
  · intro h
    exact ⟨(hzero h).1, (hzero h).2, hconq h⟩
  · intro hne
    constructor
    · intro hch
      by_contra h0
      exact hch (hresiste h0).1
    · intro h0
      rw [(hconq (by omega)).1]
      exact hne
  · by_cases h0 : destino.tropas - (combate origem destino rng).perdasDefensor = 0
    · rw [(hconq (by omega)).2.1]
    · rw [(hresiste h0).2]
      omega

theorem conquista_sempre_transfere_witness :
    2 ≤ (exAzul 3).tropas ∧ 1 ≤ (exVerde 1).tropas ∧
    (exVerde 1).tropas - (combate (exAzul 3) (exVerde 1) rngAtacanteVence).perdasDefensor = 0 ∧
    (simularAtaque (exAzul 3) (exVerde 1) rngAtacanteVence).2.1.exercito
      ≠ (exVerde 1).exercito ∧
    1 ≤ (simularAtaque (exAzul 3) (exVerde 1) rngAtacanteVence).2.1.tropas :=
  ⟨by decide, by decide, by decide,
    ((conquista_sempre_transfere (exAzul 3) (exVerde 1) rngAtacanteVence
      (by decide) (by decide)).2.2.2.2.1 (by decide)).mpr (by decide),
    (conquista_sempre_transfere (exAzul 3) (exVerde 1) rngAtacanteVence
      (by decide) (by decide)).2.2.2.2.2⟩

/-- C18: for an attacker with `a ≥ 2` troops, a defender with `d ≥ 1` and any dice,
after `simularAtaque` the two territories together have `a + d - comparacoes` troops,
with `comparacoes = min (min (a - 1) 3) (min d 2)`: the troops lost are those of the
loss counters, whether the defender survives (both keep their count after losses) or
is conquered (the troop the defender receives is taken from the attacker). -/
theorem soma_das_tropas (origem destino : Territorio) (rng : RandStream)
    (ha : 2 ≤ origem.tropas) (hd : 1 ≤ destino.tropas) :
    (simularAtaque origem destino rng).1.tropas + (simularAtaque origem destino rng).2.1.tropas
      = origem.tropas + destino.tropas - (combate origem destino rng).comparacoes ∧
    (combate origem destino rng).comparacoes
      = min (min (origem.tropas - 1) 3) (min destino.tropas 2) ∧
    (destino.tropas - (combate origem destino rng).perdasDefensor > 0 →
      (simularAtaque origem destino rng).1.tropas
        = origem.tropas - (combate origem destino rng).perdasAtacante ∧
      (simularAtaque origem destino rng).2.1.tropas
        = destino.tropas - (combate origem destino rng).perdasDefensor) ∧
    (destino.tropas - (combate origem destino rng).perdasDefensor ≤ 0 →
      (simularAtaque origem destino rng).1.tropas
        = origem.tropas - (combate origem destino rng).perdasAtacante - 1 ∧
      (simularAtaque origem destino rng).2.1.tropas
        = destino.tropas - (combate origem destino rng).perdasDefensor + 1) := by
  obtain ⟨h1, h2, h3⟩ := combate_perdas_soma origem destino rng
  have hmin := combate_comparacoes_min origem destino rng ha hd
  have hsurv : destino.tropas - (combate origem destino rng).perdasDefensor > 0 →
      (simularAtaque origem destino rng).1.tropas
        = origem.tropas - (combate origem destino rng).perdasAtacante ∧
      (simularAtaque origem destino rng).2.1.tropas
        = destino.tropas - (combate origem destino rng).perdasDefensor := by
    intro h
    rw [simularAtaque_eq, conquistar_defensor_resiste _ _ h]
    exact ⟨rfl, rfl⟩
  have hconq : destino.tropas - (combate origem destino rng).perdasDefensor ≤ 0 →
      (simularAtaque origem destino rng).1.tropas
        = origem.tropas - (combate origem destino rng).perdasAtacante - 1 ∧
      (simularAtaque origem destino rng).2.1.tropas
        = destino.tropas - (combate origem destino rng).perdasDefensor + 1 := by
    intro h
    have hA : origem.tropas - (combate origem destino rng).perdasAtacante > 1 := by omega
    rw [simularAtaque_eq, conquistar_transfere _ _ h hA]
    refine ⟨rfl, ?_⟩
    show (1 : Int) = destino.tropas - (combate origem destino rng).perdasDefensor + 1
    omega
  refine ⟨?_, hmin, hsurv, hconq⟩
  by_cases h : destino.tropas - (combate origem destino rng).perdasDefensor ≤ 0
  · rw [(hconq h).1, (hconq h).2]; omega
  · rw [(hsurv (by omega)).1, (hsurv (by omega)).2]; omega

theorem soma_das_tropas_witness :
    2 ≤ (exAzul 3).tropas ∧ 1 ≤ (exVerde 1).tropas ∧
    (simularAtaque (exAzul 3) (exVerde 1) rngAtacanteVence).1.tropas
      + (simularAtaque (exAzul 3) (exVerde 1) rngAtacanteVence).2.1.tropas
      = (exAzul 3).tropas + (exVerde 1).tropas
        - (combate (exAzul 3) (exVerde 1) rngAtacanteVence).comparacoes :=
  ⟨by decide, by decide,
    (soma_das_tropas (exAzul 3) (exVerde 1) rngAtacanteVence (by decide) (by decide)).1⟩

/-! ## Missions under the attacks of the player -/

theorem numTerritorios_mono (m1 m2 : Mapa) (cor : CorExercito)
    (h : ∀ i, (m1 i).exercito = cor → (m2 i).exercito = cor) :
    numTerritorios m1 cor ≤ numTerritorios m2 cor := by
  unfold numTerritorios
  apply Finset.card_le_card
  intro i hi
  rw [Finset.mem_filter] at hi ⊢
  exact ⟨hi.1, h i hi.2⟩

theorem faseDeAtaque_exercito (mapa : Mapa) (origemLida destinoLida : Int)
    (rng : RandStream) (i : Fin NUM_TERRITORIOS) :
    ((faseDeAtaque mapa origemLida destinoLida rng).1 i).exercito = (mapa i).exercito ∨
    (((faseDeAtaque mapa origemLida destinoLida rng).1 i).exercito = CorExercito.AZUL ∧
      (mapa i).exercito ≠ CorExercito.AZUL) := by
  cases hv : validarAtaque mapa origemLida destinoLida with
  | none =>
    left
    unfold faseDeAtaque
    rw [hv]
  | some p =>
    obtain ⟨origem, destino⟩ := p
    obtain ⟨-, -, hAzul, -, hInimigo, hne⟩ := validarAtaque_some mapa _ _ _ _ hv
    obtain ⟨-, -, he, hde⟩ := simularAtaque_preserva (mapa origem) (mapa destino) rng
    rw [faseDeAtaque_aceito mapa _ _ rng _ _ hv]
    by_cases hid : i = destino
    · subst hid
      rw [Function.update_same]
      rcases hde with h | h
      · exact Or.inl h
      · exact Or.inr ⟨by rw [h, hAzul], hInimigo⟩
    · rw [Function.update_noteq hid]
      by_cases hio : i = origem
      · subst hio
        rw [Function.update_same]
        exact Or.inl he
      · rw [Function.update_noteq hio]
        exact Or.inl rfl

/-- C17: for every map, every mission number, every pair of numbers entered in
`faseDeAtaque` (so every attack it accepts) and every dice, the number of AZUL
territories does not decrease and the number of territories of each enemy army does
not increase; hence a mission `verificarVitoria` reports as fulfilled before the call
is still reported as fulfilled after it. -/
theorem missao_monotona (mapa : Mapa) (missaoId origemLida destinoLida : Int)
    (rng : RandStream) :
    numTerritorios mapa CorExercito.AZUL
      ≤ numTerritorios (faseDeAtaque mapa origemLida destinoLida rng).1 CorExercito.AZUL ∧
    (∀ cor, cor ≠ CorExercito.AZUL →
      numTerritorios (faseDeAtaque mapa origemLida destinoLida rng).1 cor
        ≤ numTerritorios mapa cor) ∧
    (verificarVitoria mapa missaoId ≠ 0 →
      verificarVitoria (faseDeAtaque mapa origemLida destinoLida rng).1 missaoId ≠ 0) := by
  have hAzul : numTerritorios mapa CorExercito.AZUL
      ≤ numTerritorios (faseDeAtaque mapa origemLida destinoLida rng).1 CorExercito.AZUL := by
    apply numTerritorios_mono
    intro i hi
    rcases faseDeAtaque_exercito mapa origemLida destinoLida rng i with h | h
    · rw [h, hi]
    · exact h.1
  have hInimigo : ∀ cor, cor ≠ CorExercito.AZUL →
      numTerritorios (faseDeAtaque mapa origemLida destinoLida rng).1 cor
        ≤ numTerritorios mapa cor := by
    intro cor hcor
    apply numTerritorios_mono
    intro i hi
    rcases faseDeAtaque_exercito mapa origemLida destinoLida rng i with h | h
    · rw [← h, hi]
    · exfalso
      apply hcor
      rw [← hi, h.1]
  refine ⟨hAzul, hInimigo, ?_⟩
  have hVermelho := hInimigo CorExercito.VERMELHO (by decide)
  have hVerde := hInimigo CorExercito.VERDE (by decide)
  have hAmarelo := hInimigo CorExercito.AMARELO (by decide)
  rw [verificarVitoria_eq, verificarVitoria_eq]
  split_ifs <;> (try simp only [boolInt_ne_zero]) <;> omega

/-- On the example map AZUL owns 3 territories; after the accepted attack of territory
0 on territory 6 (Alaska, 1 troop) with winning dice it owns 4. -/
theorem missao_monotona_exemplo :
    validarAtaque mapaExemplo 1 7 = some (0, 6) ∧
    numTerritorios mapaExemplo CorExercito.AZUL = 3 ∧
    numTerritorios (faseDeAtaque mapaExemplo 1 7 rngAtacanteVence).1 CorExercito.AZUL = 4 ∧
    numTerritorios (faseDeAtaque mapaExemplo 1 7 rngAtacanteVence).1 CorExercito.VERDE = 2 := by
  decide

/-! ## The model on concrete inputs -/

/-- With 5 troops against 3 and the dice 4, 3, 2 against 6, 1, the attacker loses the
first comparison and the defender the second. -/
theorem combate_exemplo :
    (combate (exAzul 5) (exVerde 3) (fun k => 5 * k + 3)).roladosAtacante = [4, 3, 2] ∧
    (combate (exAzul 5) (exVerde 3) (fun k => 5 * k + 3)).dadosDefensor = [6, 1] ∧
    (combate (exAzul 5) (exVerde 3) (fun k => 5 * k + 3)).perdasAtacante = 1 ∧
    (combate (exAzul 5) (exVerde 3) (fun k => 5 * k + 3)).perdasDefensor = 1 := by
  decide

/-- After three attack phases on the stream `7 * k + 3`, the second one conquered
territory 4 (Pampa) and moved one troop in. -/
theorem jogar_exemplo :
    ((jogar (fun k => 7 * k + 3) [(3, 5), (1, 4), (2, 4)]).1 4)
      = { nome := "Pampa", exercito := CorExercito.AZUL, tropas := 1 } := by
  decide
end War
